import Mathlib

/-!
Verification development for the WATCHREADY narrative-extraction and
offense-classification engine.

Python text values are modelled as lists of characters (`PyStr`).  Calls into
the `re` regular-expression library are modelled by an oracle parameter of type
`ReOracle`: applied to the (verbatim) pattern string and the subject text it
returns the list of captured strings that `re.finditer` would produce, in
order; `re.search` call sites take the head of that list.  Everything else
(string normalisation, splitting, casing, keyword containment, sorting,
control flow) is translated directly from the source files:

* `app/modules/ocr/ocr_utils.py`
* `watch/app/modules/ocr/enhanced_extraction.py`
* `watch/app/services/narrative_ocr_service.py`
* `app/services/ocr_service.py`

The offense taxonomy (`offense_list.json`) is external reference data and is
modelled as an explicit `Taxonomy` argument, in file/declaration order (Python
dicts preserve insertion order).
-/

/-- Python strings are modelled as lists of characters. -/
abbrev PyStr := List Char

/-- Build a `PyStr` from a Lean string literal. -/
def pystr (s : String) : PyStr := s.toList

/-- Model of `re.finditer(pattern, text)`: the list of captured strings, in
match order.  `re.search` call sites use the head of this list. -/
abbrev ReOracle := PyStr → PyStr → List PyStr

/-- Whitespace test, Python `\s` / `str.strip` class. -/
def isWsC (c : Char) : Bool := c.isWhitespace

/-- Python `str.lower()` (ASCII model). -/
def pyLower (s : PyStr) : PyStr := s.map Char.toLower

/-- Python `str.upper()` (ASCII model). -/
def pyUpper (s : PyStr) : PyStr := s.map Char.toUpper

/-- Drop a trailing run of whitespace characters. -/
def dropTrailWs : PyStr → PyStr
  | [] => []
  | c :: cs =>
    match dropTrailWs cs with
    | [] => if isWsC c then [] else [c]
    | x :: xs => c :: x :: xs

/-- Python `str.strip()`: remove leading and trailing whitespace. -/
def pyStrip (s : PyStr) : PyStr := dropTrailWs (s.dropWhile isWsC)

/-- Collapse each whitespace run to a single blank; the flag records whether
the previous character was whitespace.  `cspGo false` is the model of
`re.sub(r"\s+", " ", ·)` on strings with no leading whitespace run kept
separate (a leading run also becomes one blank). -/
def cspGo : Bool → PyStr → PyStr
  | _, [] => []
  | prevWs, c :: cs =>
    if isWsC c then
      (if prevWs then cspGo true cs else ' ' :: cspGo true cs)
    else c :: cspGo false cs

/-- Model of `re.sub(r"\s+", " ", s)`. -/
def collapseWs (s : PyStr) : PyStr := cspGo false s

/-- Python `str.split()` (no separator): split on whitespace runs, dropping
empty pieces.  `cur` accumulates the current word in reverse. -/
def pySplitGo (cur : PyStr) : PyStr → List PyStr
  | [] => if cur.isEmpty then [] else [cur.reverse]
  | c :: cs =>
    if isWsC c then
      (if cur.isEmpty then pySplitGo [] cs else cur.reverse :: pySplitGo [] cs)
    else pySplitGo (c :: cur) cs

/-- Python `str.split()`. -/
def pySplit (s : PyStr) : List PyStr := pySplitGo [] s

/-- Python `" ".join(ws)`. -/
def pyJoinSp (ws : List PyStr) : PyStr := List.intercalate (pystr " ") ws

/-- Python substring containment, `needle in hay`. -/
def pyContains (needle hay : PyStr) : Bool :=
  (List.range (hay.length + 1)).any (fun i => needle.isPrefixOf (hay.drop i))

/-- Python `str.title()` (ASCII model): uppercase every letter that follows a
non-letter, lowercase the rest. -/
def pyTitleGo : Bool → PyStr → PyStr
  | _, [] => []
  | prevAlpha, c :: cs =>
    (if c.isAlpha then (if prevAlpha then c.toLower else c.toUpper) else c)
      :: pyTitleGo c.isAlpha cs

/-- Python `str.title()`. -/
def pyTitle (s : PyStr) : PyStr := pyTitleGo false s

/-- Python `str.isupper()` (ASCII model): at least one letter and no lowercase
letter. -/
def pyIsUpperStr (s : PyStr) : Bool :=
  s.any (·.isAlpha) && s.all (fun c => !c.isAlpha || c.isUpper)

/-- Python negative indexing `parts[-k]` (valid when `k ≤ parts.length`). -/
def pyIdxNeg (parts : List PyStr) (k : Nat) : PyStr :=
  parts.getD (parts.length - k) []

/-- Python truthiness of an optional string (`None` and `""` are falsy). -/
def truthy : Option PyStr → Bool
  | none => false
  | some s => !s.isEmpty

/-- Python `lines = text.split('\n')` (keeps empty lines). -/
def pySplitNl (s : PyStr) : List PyStr := List.splitOn '\n' s

/-! ## `app/modules/ocr/ocr_utils.py` -/

/-- One entry of the external `offense_list.json` taxonomy:
`{label, category, severity, regex?, keywords[]}`. -/
structure OffenseInfo where
  label : PyStr
  category : PyStr
  severity : Int
  regex : Option PyStr
  keywords : List PyStr
  deriving DecidableEq

/-- The taxonomy: offense code to entry, in declaration (insertion) order. -/
abbrev Taxonomy := List (PyStr × OffenseInfo)

/-- A detected offense dict as built by `detect_offense_from_text`;
`match_method`/`matched_text` are `none` when the corresponding key is absent
from the Python dict. -/
structure DetectedOffense where
  code : PyStr
  label : PyStr
  category : PyStr
  severity : Int
  match_method : Option PyStr
  matched_text : Option PyStr
  deriving DecidableEq

/-- The matching step of `detect_offense_from_text` for a single taxonomy
entry: regex first (when present), keywords in order otherwise. -/
def detectMatchEntry (re : ReOracle) (textUpper : PyStr)
    (entry : PyStr × OffenseInfo) : Option DetectedOffense :=
  match (match entry.2.regex with
         | some pat => (re pat textUpper).head?
         | none => none) with
  | some m0 =>
    some ⟨entry.1, entry.2.label, entry.2.category, entry.2.severity,
          some (pystr "regex"), some m0⟩
  | none =>
    match entry.2.keywords.find? (fun kw => pyContains kw textUpper) with
    | some kw =>
      some ⟨entry.1, entry.2.label, entry.2.category, entry.2.severity,
            some (pystr "keyword"), some kw⟩
    | none => none

/-- All matched taxonomy entries, in taxonomy declaration order. -/
def matchedOffenses (re : ReOracle) (tax : Taxonomy) (description : PyStr) :
    List DetectedOffense :=
  tax.filterMap (detectMatchEntry re (pyUpper description))

/-- Stable insertion (descending severity): an element is placed after every
earlier element of greater-or-equal severity, as Python's stable
`list.sort(key=..., reverse=True)` does. -/
def insertDesc (x : DetectedOffense) : List DetectedOffense → List DetectedOffense
  | [] => [x]
  | y :: ys => if x.severity < y.severity then y :: insertDesc x ys else x :: y :: ys

/-- Stable sort by severity, highest first (model of
`detected_offenses.sort(key=lambda x: x["severity"], reverse=True)`). -/
def sortBySeverityDesc : List DetectedOffense → List DetectedOffense
  | [] => []
  | x :: xs => insertDesc x (sortBySeverityDesc xs)

/-- Sentinel returned by `detect_offense_from_text` when nothing matches; the
Python dict literal has no `match_method`/`matched_text` keys. -/
def unknownOffense : DetectedOffense :=
  ⟨pystr "UNKNOWN", pystr "Unclassified", pystr "N/A", 0, none, none⟩

/-- `detect_offense_from_text(description)`, parameterised by the regex oracle
and the taxonomy. -/
def detect_offense_from_text (re : ReOracle) (tax : Taxonomy)
    (description : PyStr) : DetectedOffense :=
  match sortBySeverityDesc (matchedOffenses re tax description) with
  | [] => unknownOffense
  | best :: _ => best

/-- Sentinel list entry of `detect_all_offenses_from_text`; unlike
`detect_offense_from_text` this dict literal does carry
`match_method="none"` and `matched_text="N/A"`. -/
def unknownOffenseAll : DetectedOffense :=
  ⟨pystr "UNKNOWN", pystr "Unclassified", pystr "N/A", 0,
   some (pystr "none"), some (pystr "N/A")⟩

/-- `detect_all_offenses_from_text(description)`. -/
def detect_all_offenses_from_text (re : ReOracle) (tax : Taxonomy)
    (description : PyStr) : List DetectedOffense :=
  match sortBySeverityDesc (matchedOffenses re tax description) with
  | [] => [unknownOffenseAll]
  | l@(_ :: _) => l

/-- Template field patterns of `extract_fields_from_text`, in dict order. -/
def tplLastNamePat : PyStr := pystr "Last\\s*Name[:\\-]?\\s*([^\\n\\r]+)"

def tplFirstNamePat : PyStr := pystr "First\\s*Name[:\\-]?\\s*([^\\n\\r]+)"

def tplProgramPat : PyStr := pystr "Program[:\\-]?\\s*([^\\n\\r]+)"

def tplSectionPat : PyStr := pystr "Section[:\\-]?\\s*([^\\n\\r]+)"

def tplDatePat : PyStr := pystr "Date[:\\-]?\\s*([^\\n\\r]+)"

def tplDescriptionPat : PyStr :=
  pystr "Description[:\\-]?\\s*([\\s\\S]*?)(?=\\n\\n|\\Z)"

/-- Narrative name patterns of `extract_fields_from_text`, in order. -/
def ouNamePatterns : List PyStr :=
  [pystr "(?:Faculty\\s+Member|Staff\\s+Member)\\s+([A-Z][a-z]+\\s+[A-Z][a-z]+)(?:\\s*,)",
   pystr "(?:student)\\s+([A-Z][a-z]+(?:\\s+(?:De|Dela|Del|Da|Di|Van|Von)\\s+)?(?:[A-Z][a-z]+(?:\\s+[A-Z][a-z]+)*))\\s+from",
   pystr "(?:staff\\s+member|employee)\\s+([A-Z][a-z]+\\s+[A-Z][a-z]+)\\s+from",
   pystr "(?:instructor)\\s+([A-Z][a-z]+\\s+[A-Z][a-z]+)(?:\\s+from|\\s*,)"]

/-- Narrative program patterns of `extract_fields_from_text`. -/
def ouProgramPatterns : List PyStr :=
  [pystr "from\\s+(?:the\\s+)?(BS[A-Z]\x7b2,4\x7d)\\s+Department",
   pystr "from\\s+(BS[A-Z]\x7b2,4\x7d)\\b",
   pystr "from\\s+(?:the\\s+)?([A-Z][a-z]+)\\s+Department\\b",
   pystr "(?:program|course|department)[:\\-]?\\s*([A-Z][A-Z]+)\\b"]

/-- Narrative section patterns of `extract_fields_from_text`. -/
def ouSectionPatterns : List PyStr :=
  [pystr "\\b([A-Z]\x7b2,4\x7d[-\\s]?\\d\x7b1,3\x7d[A-Z]?)\\b",
   pystr "Section[:\\-]?\\s*([^\\n\\r,]+)"]

/-- Narrative date patterns of `extract_fields_from_text`. -/
def ouDatePatterns : List PyStr :=
  [pystr "(?:on\\s+)?([A-Z][a-z]+\\s+\\d\x7b1,2\x7d,?\\s+\\d\x7b4\x7d)",
   pystr "(?:on\\s+)?(\\d\x7b1,2\x7d/\\d\x7b1,2\x7d/\\d\x7b4\x7d)",
   pystr "(?:on\\s+)?(\\d\x7b4\x7d-\\d\x7b2\x7d-\\d\x7b2\x7d)"]

/-- The fields dict built by `extract_fields_from_text` (all keys are present,
defaulting to the empty string). -/
structure Fields where
  last_name : PyStr
  first_name : PyStr
  program : PyStr
  «section» : PyStr
  date : PyStr
  description : PyStr
  deriving DecidableEq

/-- One template lookup: `match.group(1).strip() if match else ""`. -/
def templateField (re : ReOracle) (text pat : PyStr) : PyStr :=
  match (re pat text).head? with
  | some m => pyStrip m
  | none => []

/-- Model of `re.sub(r'\s+(from|was|were|,)\s*$', '', full_name).strip()`:
remove one trailing stop word (with its mandatory preceding whitespace and any
trailing whitespace), then strip. -/
def stripTrailingStop (l : PyStr) : PyStr :=
  let l2 := dropTrailWs l
  let lw := pyLower l2
  let tryW (w : PyStr) : Option PyStr :=
    if w.length < l2.length && w.isSuffixOf lw &&
        isWsC (l2.getD (l2.length - w.length - 1) 'x') then
      some (dropTrailWs (l2.take (l2.length - w.length)))
    else none
  match tryW (pystr "from") with
  | some r => pyStrip r
  | none =>
    match tryW (pystr "was") with
    | some r => pyStrip r
    | none =>
      match tryW (pystr "were") with
      | some r => pyStrip r
      | none =>
        match tryW (pystr ",") with
        | some r => pyStrip r
        | none => pyStrip l

/-- Particle list used by the compound-surname splits in
`extract_fields_from_text` and `enhanced_extraction.extract_all_info`. -/
def ouParticles : List PyStr :=
  [pystr "de", pystr "dela", pystr "del", pystr "van", pystr "von"]

/-- The compound-surname split of `extract_fields_from_text`
(ocr_utils.py lines 108-120), applied to a narrative full name.  `none` means
no branch assigned the name fields (fewer than two words). -/
def extractFieldsNameSplit (full_name : PyStr) : Option (PyStr × PyStr) :=
  let name_parts := pySplit full_name
  if 3 ≤ name_parts.length && ouParticles.contains (pyLower (pyIdxNeg name_parts 3)) then
    some (pyJoinSp (name_parts.take (name_parts.length - 3)),
          pyJoinSp (name_parts.drop (name_parts.length - 3)))
  else if 2 ≤ name_parts.length && ouParticles.contains (pyLower (pyIdxNeg name_parts 2)) then
    some (pyJoinSp (name_parts.take (name_parts.length - 2)),
          pyJoinSp (name_parts.drop (name_parts.length - 2)))
  else if 2 ≤ name_parts.length then
    some (pyJoinSp (name_parts.take (name_parts.length - 1)),
          pyIdxNeg name_parts 1)
  else none

/-- Header keywords that disqualify a line from the fallback description
body (first membership test of the loop). -/
def descHeadersA : List PyStr :=
  [pystr "REPORT", pystr "MEMO", pystr "INCIDENT", pystr "COMPLAINT FORM",
   pystr "DISCIPLINARY"]

/-- Header keywords that reset the skip counter (second membership test). -/
def descHeadersB : List PyStr := [pystr "REPORT", pystr "MEMO", pystr "INCIDENT"]

/-- The body-line collection loop of the fallback description in
`extract_fields_from_text`; `skip` is the running `skip_count`. -/
def fallbackDescGo (skip : Nat) : List PyStr → List PyStr
  | [] => []
  | line0 :: rest =>
    let line := pyStrip line0
    if !line.isEmpty && !(descHeadersA.any (fun h => pyContains h (pyUpper line))) then
      (if 1 ≤ skip then line :: fallbackDescGo skip rest
       else fallbackDescGo (skip + 1) rest)
    else if !line.isEmpty && descHeadersB.any (fun h => pyContains h (pyUpper line)) then
      fallbackDescGo 0 rest
    else fallbackDescGo skip rest

/-- Fallback description of `extract_fields_from_text`: join the collected
body lines, or the stripped whole text when none were collected. -/
def fallbackDescription (text : PyStr) : PyStr :=
  let body := fallbackDescGo 0 (pySplitNl text)
  if body.isEmpty then pyStrip text else pyJoinSp body

/-- The template step of `extract_fields_from_text` (first loop over
`template_patterns`). -/
def efTemplateStage (re : ReOracle) (text : PyStr) : Fields :=
  { last_name := templateField re text tplLastNamePat
    first_name := templateField re text tplFirstNamePat
    program := templateField re text tplProgramPat
    «section» := templateField re text tplSectionPat
    date := templateField re text tplDatePat
    description := templateField re text tplDescriptionPat }

/-- The narrative name step of `extract_fields_from_text`: runs only when
both template name fields are empty. -/
def efNameStage (re : ReOracle) (text : PyStr) (f0 : Fields) : Fields :=
  if f0.first_name.isEmpty && f0.last_name.isEmpty then
    match ouNamePatterns.findSome? (fun pat => (re pat text).head?) with
    | some cand =>
      let full_name := stripTrailingStop (pyStrip cand)
      match extractFieldsNameSplit full_name with
      | some (fn, ln) => { f0 with first_name := fn, last_name := ln }
      | none => f0
    | none => f0
  else f0

/-- The narrative program step of `extract_fields_from_text`. -/
def efProgramStage (re : ReOracle) (text : PyStr) (f1 : Fields) : Fields :=
  if f1.program.isEmpty then
    match ouProgramPatterns.findSome? (fun pat =>
        (re pat text).head?.bind (fun m =>
          let prog := pyStrip m
          if !prog.isEmpty && 2 ≤ prog.length then some prog else none)) with
    | some prog => { f1 with program := prog }
    | none => f1
  else f1

/-- The narrative section step of `extract_fields_from_text`. -/
def efSectionStage (re : ReOracle) (text : PyStr) (f2 : Fields) : Fields :=
  if f2.«section».isEmpty then
    match ouSectionPatterns.findSome? (fun pat => (re pat text).head?) with
    | some m => { f2 with «section» := pyStrip m }
    | none => f2
  else f2

/-- The narrative date step of `extract_fields_from_text`. -/
def efDateStage (re : ReOracle) (text : PyStr) (f3 : Fields) : Fields :=
  if f3.date.isEmpty then
    match ouDatePatterns.findSome? (fun pat => (re pat text).head?) with
    | some m => { f3 with date := pyStrip m }
    | none => f3
  else f3

/-- The fallback description step of `extract_fields_from_text`. -/
def efDescriptionStage (text : PyStr) (f4 : Fields) : Fields :=
  if f4.description.isEmpty then
    { f4 with description := fallbackDescription text }
  else f4

/-- `extract_fields_from_text(text)`. -/
def extract_fields_from_text (re : ReOracle) (text : PyStr) : Fields :=
  efDescriptionStage text
    (efDateStage re text
      (efSectionStage re text
        (efProgramStage re text
          (efNameStage re text (efTemplateStage re text)))))

/-- Context patterns (Pattern 2) of `identify_offender_from_text`. -/
def idContextPatterns : List PyStr :=
  [pystr "(?:student|offender|faculty|staff|employee)\\s+(?:named\\s+)?([A-Z][a-z]+(?:\\s+(?:de|dela|del|van|von|Da|Di)?\\s*[A-Z][a-z]+)+)",
   pystr "(?:student|offender|faculty|staff|employee)\\s+([A-Z][a-z]+(?:\\s+[A-Z][a-z]+)\x7b1,3\x7d)"]

/-- Action-verb patterns (Pattern 3) of `identify_offender_from_text`. -/
def idActionPatterns : List PyStr :=
  [pystr "\\b([A-Z][a-z]+(?:\\s+(?:de|dela|del|van|von|Da|Di)?\\s*[A-Z][a-z]+)+)\\s+(?:was|were|is|committed|caught|violated|engaged|participated)",
   pystr "\\b([A-Z][a-z]+(?:\\s+[A-Z][a-z]+)\x7b1,3\x7d)\\s+(?:who|was|were|committed|caught|violated)"]

/-- "About" pattern (Pattern 4) of `identify_offender_from_text`. -/
def idAboutPattern : PyStr :=
  pystr "(?:report|complaint|letter|document)\\s+(?:is\\s+)?(?:about|regarding|concerning)\\s+([A-Z][a-z]+(?:\\s+(?:de|dela|del|van|von)?\\s*[A-Z][a-z]+)+)"

/-- Quoted/parenthesised pattern (Pattern 5) of `identify_offender_from_text`. -/
def idQuotedPattern : PyStr :=
  pystr "[\"\x27(]([A-Z][a-z]+(?:\\s+[A-Z][a-z]+)\x7b1,3\x7d)[\"\x27)]"

/-- Capitalised common words excluded from Pattern 2 hits. -/
def idCommonWords : List PyStr :=
  [pystr "the", pystr "was", pystr "is", pystr "are", pystr "were",
   pystr "been", pystr "has", pystr "have", pystr "had"]

/-- False positives removed by the final filter of
`identify_offender_from_text`. -/
def idFalsePositives : List PyStr :=
  [pystr "the student", pystr "the offender", pystr "this report",
   pystr "this letter"]

/-- Final filter of `identify_offender_from_text`: at least two words, no
digit, and not a known false positive. -/
def idFinalFilter (name : PyStr) : Bool :=
  decide (2 ≤ (pySplit name).length) && !(name.any Char.isDigit) &&
    !(idFalsePositives.contains (pyLower name))

/-- `identify_offender_from_text(text)`.  `pyset` models the
order-unspecified `list(set(...))` deduplication. -/
def identify_offender_from_text (re : ReOracle)
    (pyset : List PyStr → List PyStr) (text : PyStr) : List PyStr :=
  let templateHits :=
    match (re tplLastNamePat text).head?, (re tplFirstNamePat text).head? with
    | some lm, some fm =>
      let last_name := pyStrip lm
      let first_name := pyStrip fm
      let last_name := if pyIsUpperStr last_name then pyTitle last_name else last_name
      let first_name := if pyIsUpperStr first_name then pyTitle first_name else first_name
      [first_name ++ pystr " " ++ last_name]
    | _, _ => []
  let contextHits :=
    (idContextPatterns.flatMap (fun pat => re pat text)).filterMap (fun name =>
      let cleaned := pyStrip name
      if !cleaned.isEmpty && !(idCommonWords.contains (pyLower cleaned)) then
        some cleaned
      else none)
  let actionHits :=
    (idActionPatterns.flatMap (fun pat => re pat text)).filterMap (fun name =>
      let cleaned := pyStrip name
      if !cleaned.isEmpty && decide (2 ≤ (pySplit cleaned).length) then
        some cleaned
      else none)
  let aboutHits :=
    (re idAboutPattern text).filterMap (fun name =>
      let cleaned := pyStrip name
      if !cleaned.isEmpty then some cleaned else none)
  let quotedHits :=
    (re idQuotedPattern text).filterMap (fun name =>
      let cleaned := pyStrip name
      if !cleaned.isEmpty && decide (2 ≤ (pySplit cleaned).length) then
        some cleaned
      else none)
  let offenders := templateHits ++ contextHits ++ actionHits ++ aboutHits ++ quotedHits
  (pyset offenders).filter idFinalFilter

/-! ## `watch/app/modules/ocr/enhanced_extraction.py` -/

/-- The compound-surname split of `enhanced_extraction.extract_all_info`
(lines 21-32), applied to the first identified offender. -/
def enhancedNameSplit (full_name : PyStr) : Option (PyStr × PyStr) :=
  let name_parts := pySplit full_name
  if 3 ≤ name_parts.length && ouParticles.contains (pyLower (pyIdxNeg name_parts 3)) then
    some (pyJoinSp (name_parts.take (name_parts.length - 3)),
          pyJoinSp (name_parts.drop (name_parts.length - 3)))
  else if 2 ≤ name_parts.length && ouParticles.contains (pyLower (pyIdxNeg name_parts 2)) then
    some (pyJoinSp (name_parts.take (name_parts.length - 2)),
          pyJoinSp (name_parts.drop (name_parts.length - 2)))
  else if 2 ≤ name_parts.length then
    some (pyJoinSp (name_parts.take (name_parts.length - 1)),
          pyIdxNeg name_parts 1)
  else none

/-- The combined result dict of `enhanced_extraction.extract_all_info`. -/
structure EnhancedResult where
  fields : Fields
  offenders_identified : List PyStr
  offense_detected : DetectedOffense
  all_offenses_detected : List DetectedOffense
  deriving DecidableEq

/-- `enhanced_extraction.extract_all_info(text)`. -/
def enhanced_extract_all_info (re : ReOracle)
    (pyset : List PyStr → List PyStr) (tax : Taxonomy) (text : PyStr) :
    EnhancedResult :=
  let fields := extract_fields_from_text re text
  let offenders := identify_offender_from_text re pyset text
  let fields :=
    if !offenders.isEmpty && (fields.first_name.isEmpty || fields.last_name.isEmpty) then
      match offenders with
      | [] => fields
      | full_name :: _ =>
        match enhancedNameSplit full_name with
        | some (fn, ln) => { fields with first_name := fn, last_name := ln }
        | none => fields
    else fields
  let descArg := if !fields.description.isEmpty then fields.description else text
  { fields := fields
    offenders_identified := offenders
    offense_detected := detect_offense_from_text re tax descArg
    all_offenses_detected := detect_all_offenses_from_text re tax descArg }

/-! ## `watch/app/services/narrative_ocr_service.py` -/

/-- Model of `re.sub(pattern, repl, s)` for the cleanup substitutions of the
narrative service (oracle, like `ReOracle`). -/
abbrev ReSub := PyStr → PyStr → PyStr → PyStr

/-- Model of `datetime.strptime(s, fmt)` followed by
`strftime('%Y-%m-%d')`: `none` when parsing fails. -/
abbrev StrpTime := PyStr → PyStr → Option PyStr

/-- Name patterns of `extract_student_name_from_narrative`, in order. -/
def nosNamePatterns : List PyStr :=
  [pystr "(?:full\\s+name|name)\\s*[:=]?\\s*([A-Z][a-z]+(?:\\s+[A-Z][a-z]+)\x7b1,4\x7d)",
   pystr "(?:full\\s+name|name)\\s+(?:is|was|ng estudyante ay)\\s+([A-Z][a-z]+(?:\\s+[A-Z][a-z]+)\x7b1,4\x7d)",
   pystr "(?:student|estudyante|mag-aaral)\\s+([A-Z][a-z]+(?:\\s+[A-Z][a-z]+)\x7b1,4\x7d)\\s+(?:was|is|enrolled|from|ng|,)",
   pystr "(?:found|caught|saw|reported|witnessed)\\s+(?:the\\s+student\\s+)?([A-Z][a-z]+(?:\\s+[A-Z][a-z]+)\x7b1,4\x7d)",
   pystr "(?:si|kay|ni)\\s+([A-Z][a-z]+(?:\\s+[A-Z][a-z]+)\x7b1,4\x7d)",
   pystr "([A-Z][a-z]+(?:\\s+[A-Z][a-z]+)\x7b1,4\x7d)\\s+(?:admitted|confessed|was caught|violated|committed)",
   pystr "(?:name|pangalan|ngalan)\\s+(?:is|ay|:)\\s+([A-Z][a-z]+(?:\\s+[A-Z][a-z]+)\x7b1,4\x7d)",
   pystr "^([A-Z][a-z]+(?:\\s+[A-Z][a-z]+)\x7b1,4\x7d)\\s+(?:from|of|in|at|enrolled|studying)",
   pystr "(?:regarding|concerning|about)\\s+(?:student\\s+)?([A-Z][a-z]+(?:\\s+[A-Z][a-z]+)\x7b1,4\x7d)"]

/-- False-positive phrases excluded by `extract_student_name_from_narrative`. -/
def nosFalsePositives : List PyStr :=
  [pystr "Information Technology", pystr "Science In", pystr "Bachelor Of",
   pystr "Category A", pystr "Smoking Inside", pystr "The Student",
   pystr "A Student", pystr "From Section", pystr "Section From",
   pystr "The Janitor", pystr "De La", pystr "Inside Campus"]

/-- Filipino particle list of the narrative-service name split. -/
def nosParticles : List PyStr :=
  [pystr "de", pystr "dela", pystr "del", pystr "san", pystr "santa"]

/-- The first/last split of `extract_student_name_from_narrative`
(narrative_ocr_service.py lines 86-108), on the whitespace-split words of the
full name; `none` models the `continue` for fewer than two words. -/
def nosNameSplit : List PyStr → Option (PyStr × PyStr)
  | [a, b] => some (a, b)
  | [a, b, c] =>
    if nosParticles.contains (pyLower b) then some (a, pyJoinSp [b, c])
    else some (pyJoinSp [a, b], c)
  | a :: b :: c :: d :: rest =>
    if (b :: c :: d :: rest).any (fun p => nosParticles.contains (pyLower p)) then
      some (a, pyJoinSp (b :: c :: d :: rest))
    else some (pyJoinSp [a, b], pyJoinSp (c :: d :: rest))
  | _ => none

/-- `NarrativeOCRService.extract_student_name_from_narrative(text)`,
returning `(first_name, last_name, full_name)`. -/
def extract_student_name_from_narrative (re : ReOracle) (text : PyStr) :
    PyStr × PyStr × PyStr :=
  (nosNamePatterns.findSome? (fun pat =>
    (re pat text).findSome? (fun m =>
      let full_name := pyStrip m
      let full_name := collapseWs full_name
      if nosFalsePositives.any (fun fp =>
          pyContains (pyLower fp) (pyLower full_name)) then none
      else
        let name_parts := pySplit full_name
        if name_parts.length < 2 then none
        else if !(name_parts.all (fun p =>
            match p.head? with | some c => c.isUpper | none => true)) then none
        else (nosNameSplit name_parts).map (fun fl => (fl.1, fl.2, full_name))))).getD
    ([], [], [])

/-- Program patterns of `extract_program_from_narrative`. -/
def nosProgramPatterns : List PyStr :=
  [pystr "(?:enrolled in|taking|pursuing|studying)\\s+(?:the\\s+)?(Bachelor\\s+of\\s+Science\\s+in\\s+[A-Za-z\\s&()]+)",
   pystr "(?:enrolled in|taking|pursuing|studying)\\s+(?:the\\s+)?(Bachelor\\s+of\\s+Arts\\s+in\\s+[A-Za-z\\s&()]+)",
   pystr "(?:program|course|kurso|programa)\\s*[:is]?\\s*([A-Za-z\\s&()]+(?:Technology|Science|Arts|Education|Business|Engineering))",
   pystr "(BS[A-Z]\x7b2,4\x7d|BA[A-Z]\x7b2,4\x7d)\\s+(?:program|course)?",
   pystr "(Bachelor\\s+of\\s+Science\\s+in\\s+Information\\s+Technology)",
   pystr "(Bachelor\\s+of\\s+Science\\s+in\\s+Computer\\s+Science)",
   pystr "(Bachelor\\s+of\\s+Science\\s+in\\s+Business\\s+Administration)"]

/-- Cleanup pattern applied to an extracted program name. -/
def nosProgramCleanupPat : PyStr :=
  pystr "\\s+(program|course|student|enrolled).*$"

/-- `NarrativeOCRService.extract_program_from_narrative(text)`. -/
def extract_program_from_narrative (re : ReOracle) (resub : ReSub)
    (text : PyStr) : PyStr :=
  (nosProgramPatterns.findSome? (fun pat =>
    ((re pat text).head?).map (fun m =>
      resub nosProgramCleanupPat [] (pyStrip m)))).getD []

/-- Section patterns of `extract_section_from_narrative`. -/
def nosSectionPatterns : List PyStr :=
  [pystr "(?:section|seksyon|class|klase)\\s+([A-Z]?\\d\x7b1,2\x7d[A-Z]?)",
   pystr "(?:section|seksyon|class|klase)\\s*[:is]?\\s*([0-9]\x7b1,2\x7d[A-Z]|[A-Z][0-9]\x7b1,2\x7d)",
   pystr "\\b([0-9][A-Z])\\b",
   pystr "\\b([A-Z][0-9])\\b"]

/-- `NarrativeOCRService.extract_section_from_narrative(text)`. -/
def extract_section_from_narrative (re : ReOracle) (text : PyStr) : PyStr :=
  (nosSectionPatterns.findSome? (fun pat =>
    ((re pat text).head?).map (fun m => pyUpper (pyStrip m)))).getD []

/-- Date patterns of `extract_date_from_narrative`. -/
def nosDatePatterns : List PyStr :=
  [pystr "((?:January|February|March|April|May|June|July|August|September|October|November|December)\\s+\\d\x7b1,2\x7d,?\\s+\\d\x7b4\x7d)",
   pystr "(\\d\x7b1,2\x7d\\s+(?:January|February|March|April|May|June|July|August|September|October|November|December)\\s+\\d\x7b4\x7d)",
   pystr "(\\d\x7b1,2\x7d/\\d\x7b1,2\x7d/\\d\x7b4\x7d)",
   pystr "(\\d\x7b4\x7d-\\d\x7b1,2\x7d-\\d\x7b1,2\x7d)",
   pystr "((?:Enero|Pebrero|Marso|Abril|Mayo|Hunyo|Hulyo|Agosto|Setyembre|Oktubre|Nobyembre|Disyembre)\\s+\\d\x7b1,2\x7d,?\\s+\\d\x7b4\x7d)"]

/-- Date formats tried by `extract_date_from_narrative`, in order. -/
def nosDateFormats : List PyStr :=
  [pystr "%B %d, %Y", pystr "%B %d %Y", pystr "%d %B %Y",
   pystr "%m/%d/%Y", pystr "%Y-%m-%d"]

/-- `NarrativeOCRService.extract_date_from_narrative(text)`. -/
def extract_date_from_narrative (re : ReOracle) (strptime : StrpTime)
    (text : PyStr) : PyStr :=
  (nosDatePatterns.findSome? (fun pat =>
    ((re pat text).head?).map (fun m =>
      let date_str := pyStrip m
      match nosDateFormats.findSome? (fun fmt => strptime date_str fmt) with
      | some iso => iso
      | none => date_str))).getD []

/-- The keyword-to-offense mapping of `extract_offense_from_narrative`, in
dict insertion order. -/
def nosOffenseMapping : List (PyStr × PyStr × PyStr) :=
  [(pystr "smoking", pystr "Category A", pystr "Smoking Inside Campus"),
   (pystr "cheating", pystr "Category A", pystr "Cheating/Academic Dishonesty"),
   (pystr "fighting", pystr "Category A", pystr "Physical Violence/Fighting"),
   (pystr "stealing", pystr "Category A", pystr "Theft/Stealing"),
   (pystr "vandalism", pystr "Category B", pystr "Vandalism/Destruction of Property"),
   (pystr "disrespect", pystr "Category B", pystr "Disrespectful Behavior"),
   (pystr "tardiness", pystr "Category C", pystr "Excessive Tardiness"),
   (pystr "absent", pystr "Category C", pystr "Excessive Absences"),
   (pystr "uniform", pystr "Category C", pystr "Uniform Violation"),
   (pystr "phone", pystr "Category C", pystr "Improper Use of Mobile Phone"),
   (pystr "bullying", pystr "Category A", pystr "Bullying/Harassment"),
   (pystr "intoxicated", pystr "Category A", pystr "Under the Influence of Alcohol")]

/-- `NarrativeOCRService.extract_offense_from_narrative(text)`, returning
`(category, specific_offense)`. -/
def extract_offense_from_narrative (re : ReOracle) (text : PyStr) :
    PyStr × PyStr :=
  let text_lower := pyLower text
  match nosOffenseMapping.find? (fun e => pyContains e.1 text_lower) with
  | some e => (e.2.1, e.2.2)
  | none =>
    let category :=
      match (re (pystr "Category\\s+([A-C])") text).head? with
      | some g => pystr "Category " ++ g
      | none => []
    let specific_offense :=
      match (re (pystr "(?:offense|violation|incident)\\s+(?:is|was|:)\\s+([A-Za-z\\s/]+)") text).head? with
      | some g => pyStrip g
      | none => []
    (category, specific_offense)

/-- The result dict of `extract_all_from_narrative` (all values strings). -/
structure NarrativeResult where
  first_name : PyStr
  last_name : PyStr
  full_name : PyStr
  program_or_dept : PyStr
  «section» : PyStr
  date : PyStr
  offense_category : PyStr
  offense_type : PyStr
  description : PyStr
  deriving DecidableEq

/-- `NarrativeOCRService.extract_all_from_narrative(text, entity_type)`. -/
def extract_all_from_narrative (re : ReOracle) (resub : ReSub)
    (strptime : StrpTime) (text : PyStr) (entity_type : PyStr) :
    NarrativeResult :=
  let name := extract_student_name_from_narrative re text
  { first_name := name.1
    last_name := name.2.1
    full_name := name.2.2
    program_or_dept := extract_program_from_narrative re resub text
    «section» := extract_section_from_narrative re text
    date := extract_date_from_narrative re strptime text
    offense_category := (extract_offense_from_narrative re text).1
    offense_type := (extract_offense_from_narrative re text).2
    description := text.take 500 }

/-! ## `app/services/ocr_service.py` -/

/-- `COMPLAINT_PATTERNS['student_info']['name_patterns']`. -/
def osStudentNamePatterns : List PyStr :=
  [pystr "(?:student|pupil|learner|mag-aaral|estudyante)\\s*:?\\s*([A-Za-z\\s,\\.]+)",
   pystr "(?:name|pangalan|ngalan)\\s*:?\\s*([A-Za-z\\s,\\.]+)",
   pystr "(?:last name|apelyido|surname)\\s*:?\\s*([A-Za-z\\s,\\.]+)",
   pystr "(?:first name|unang pangalan|given name)\\s*:?\\s*([A-Za-z\\s,\\.]+)",
   pystr "([A-Z][a-z]+\\s+[A-Z][a-z]+)"]

/-- `COMPLAINT_PATTERNS['student_info']['program_patterns']`. -/
def osProgramPatterns : List PyStr :=
  [pystr "(?:program|course|kurso|programa)\\s*:?\\s*([A-Za-z\\s&()]+)",
   pystr "(?:major|specialization|espesyalisasyon)\\s*:?\\s*([A-Za-z\\s&()]+)",
   pystr "(?:degree|antas|bachelor|master)\\s*:?\\s*([A-Za-z\\s&()]+)",
   pystr "(?:BS|BA|BSCS|BSIT|BEED|BSTM|BSBA|BSPA|BSCE|BSEE|BSME)\\s*([A-Za-z\\s&()]*)",
   pystr "(?:ICT|IT|CS|Engineering|Business|Education|Tourism|Psychology|Criminology)"]

/-- `COMPLAINT_PATTERNS['student_info']['section_patterns']`. -/
def osSectionPatterns : List PyStr :=
  [pystr "(?:section|seksyon|klase|class)\\s*:?\\s*([A-Za-z0-9\\s]+)",
   pystr "(?:group|grupo|batch|batch)\\s*:?\\s*([A-Za-z0-9\\s]+)",
   pystr "(?:year level|taong antas|grade level)\\s*:?\\s*([A-Za-z0-9\\s]+)",
   pystr "(?:1st|2nd|3rd|4th|first|second|third|fourth)\\s+year\\s*([A-Za-z0-9]*)",
   pystr "([A-Z][0-9]\x7b1,2\x7d)",
   pystr "([0-9]\x7b1,2\x7d[A-Z])"]

/-- `COMPLAINT_PATTERNS['faculty_info']['name_patterns']`. -/
def osFacultyNamePatterns : List PyStr :=
  [pystr "(?:faculty|instructor|teacher|professor|guro|tagapagturo)\\s*:?\\s*([A-Za-z\\s,\\.]+)",
   pystr "(?:name|pangalan|ngalan)\\s*:?\\s*([A-Za-z\\s,\\.]+)",
   pystr "(?:last name|apelyido|surname)\\s*:?\\s*([A-Za-z\\s,\\.]+)",
   pystr "(?:first name|unang pangalan|given name)\\s*:?\\s*([A-Za-z\\s,\\.]+)",
   pystr "([A-Z][a-z]+\\s+[A-Z][a-z]+)"]

/-- `COMPLAINT_PATTERNS['faculty_info']['department_patterns']`. -/
def osDepartmentPatterns : List PyStr :=
  [pystr "(?:department|kagawaran|departamento)\\s*:?\\s*([A-Za-z\\s&()]+)",
   pystr "(?:college|kolehiyo|school|paaralan)\\s*:?\\s*([A-Za-z\\s&()]+)",
   pystr "(?:division|dibisyon|unit|yunit)\\s*:?\\s*([A-Za-z\\s&()]+)",
   pystr "(?:ICT|Information Communications Technology|IT|Information Technology)",
   pystr "(?:GE|General Education|Gen Ed)",
   pystr "(?:BM|Business Management|Business)",
   pystr "(?:Engineering|Civil Engineering|Mechanical Engineering|Electrical Engineering)",
   pystr "(?:Education|Teacher Education|BEED|BSEd)",
   pystr "(?:Tourism|Hospitality|TSTM)",
   pystr "(?:Psychology|Criminology|Social Work)"]

/-- `COMPLAINT_PATTERNS['staff_info']['name_patterns']`. -/
def osStaffNamePatterns : List PyStr :=
  [pystr "(?:staff|employee|kawani|empleyado)\\s*:?\\s*([A-Za-z\\s,\\.]+)",
   pystr "(?:name|pangalan|ngalan)\\s*:?\\s*([A-Za-z\\s,\\.]+)",
   pystr "(?:last name|apelyido|surname)\\s*:?\\s*([A-Za-z\\s,\\.]+)",
   pystr "(?:first name|unang pangalan|given name)\\s*:?\\s*([A-Za-z\\s,\\.]+)",
   pystr "([A-Z][a-z]+\\s+[A-Z][a-z]+)"]

/-- `COMPLAINT_PATTERNS['staff_info']['position_patterns']`. -/
def osPositionPatterns : List PyStr :=
  [pystr "(?:position|posisyon|tungkulin|role|papel)\\s*:?\\s*([A-Za-z\\s&()]+)",
   pystr "(?:job title|pamagat ng trabaho|designation|tawag)\\s*:?\\s*([A-Za-z\\s&()]+)",
   pystr "(?:secretary|sekretarya|clerk|klerk)",
   pystr "(?:admin|administrator|administrador)",
   pystr "(?:guard|bantay|security|seguridad)",
   pystr "(?:maintenance|pagpapanatili|utility|utilidad)",
   pystr "(?:librarian|tagapangasiwa ng aklatan)",
   pystr "(?:cashier|taga-ingat ng pera|bookkeeper|taga-ingat ng libro)",
   pystr "(?:registrar|tagatala|records keeper|taga-ingat ng talaan)",
   pystr "(?:IT support|suporta sa IT|technical support)",
   pystr "(?:janitor|tagalinis|cleaner|tagapaglinis)",
   pystr "(?:driver|tsuper|chauffeur)"]

/-- `COMPLAINT_PATTERNS['offense_info']['category_patterns']`. -/
def osCategoryPatterns : List PyStr :=
  [pystr "(?:category|kategorya|klase|type)\\s*:?\\s*([A-D])",
   pystr "(?:offense category|kategorya ng kaso)\\s*:?\\s*([A-D])",
   pystr "(?:violation type|uri ng paglabag)\\s*:?\\s*([A-D])",
   pystr "(?:case type|uri ng kaso)\\s*:?\\s*([A-D])",
   pystr "Category\\s+([A-D])",
   pystr "Kategorya\\s+([A-D])"]

/-- `COMPLAINT_PATTERNS['offense_info']['specific_offense_patterns']`. -/
def osSpecificOffensePatterns : List PyStr :=
  [pystr "(?:repeated minor offense|paulit-ulit na menor na paglabag)",
   pystr "(?:tampered or borrowed id|napinsala o hiniram na id)",
   pystr "(?:smoking inside campus|paninigarilyo sa loob ng campus)",
   pystr "(?:intoxication or liquor|pagkalasing o alak)",
   pystr "(?:unauthorized entry|hindi awtorisadong pagpasok)",
   pystr "(?:cheating|pandadaya)",
   pystr "(?:vandalism|pagsira ng ari-arian)",
   pystr "(?:disrespectful online post|hindi magalang na online na post)",
   pystr "(?:privacy violation|paglabag sa privacy)",
   pystr "(?:ill repute places|lugaring may masamang reputasyon)",
   pystr "(?:false testimony|maling patotoo)",
   pystr "(?:grave insult|malubhang insulto)",
   pystr "(?:hacking|paghack)",
   pystr "(?:forgery|pagpeke)",
   pystr "(?:theft|pagnanakaw)",
   pystr "(?:unauthorized material use|hindi awtorisadong paggamit ng materyal)",
   pystr "(?:embezzlement|pagnanakaw ng pondo)",
   pystr "(?:illegal assembly|hindi legal na pagpupulong)",
   pystr "(?:immorality|kawalang moralidad)",
   pystr "(?:bullying|pang-aapi)",
   pystr "(?:brawling|awayan)",
   pystr "(?:physical assault|pisikal na pag-atake)",
   pystr "(?:drug use|pagkonsumo ng droga)",
   pystr "(?:false alarm|maling alarma)",
   pystr "(?:fire equipment misuse|maling paggamit ng kagamitang pang-apoy)",
   pystr "(?:drug possession|pagkakaroon ng droga)",
   pystr "(?:repeat drug use|paulit-ulit na pagkonsumo ng droga)",
   pystr "(?:possession of firearm|pagkakaroon ng baril)",
   pystr "(?:illegal fraternity|hindi legal na praternidad)",
   pystr "(?:hazing|hazing)",
   pystr "(?:crime involving morality|krimen na may kinalaman sa moralidad)",
   pystr "(?:sexual harassment|pang-aabuso sa sekswal)",
   pystr "(?:subversion or sedition|subversion o sedisyon)"]

/-- `COMPLAINT_PATTERNS['offense_info']['description_patterns']`. -/
def osDescriptionPatterns : List PyStr :=
  [pystr "(?:description|deskripsyon|paglalarawan)\\s*:?\\s*(.+?)(?:\\n|$)",
   pystr "(?:details|mga detalye|particulars)\\s*:?\\s*(.+?)(?:\\n|$)",
   pystr "(?:incident|pangyayari|event)\\s*:?\\s*(.+?)(?:\\n|$)",
   pystr "(?:what happened|ano ang nangyari|nangyari)\\s*:?\\s*(.+?)(?:\\n|$)",
   pystr "(?:narration|salaysay|story)\\s*:?\\s*(.+?)(?:\\n|$)",
   pystr "(?:account|ulat|report)\\s*:?\\s*(.+?)(?:\\n|$)",
   pystr "(?:complaint|reklamo|sumbong)\\s*:?\\s*(.+?)(?:\\n|$)",
   pystr "(?:allegation|akusasyon|paratang)\\s*:?\\s*(.+?)(?:\\n|$)"]

/-- `OCRService.OFFENSE_CATEGORY_MAP`, in dict insertion order. -/
def OFFENSE_CATEGORY_MAP : List (PyStr × PyStr) :=
  [(pystr "repeated minor offense", pystr "A"),
   (pystr "tampered or borrowed id", pystr "A"),
   (pystr "smoking inside campus", pystr "A"),
   (pystr "intoxication or liquor", pystr "A"),
   (pystr "unauthorized entry", pystr "A"),
   (pystr "cheating", pystr "A"),
   (pystr "vandalism", pystr "B"),
   (pystr "disrespectful online post", pystr "B"),
   (pystr "privacy violation", pystr "B"),
   (pystr "ill repute places", pystr "B"),
   (pystr "false testimony", pystr "B"),
   (pystr "grave insult", pystr "B"),
   (pystr "hacking", pystr "C"),
   (pystr "forgery", pystr "C"),
   (pystr "theft", pystr "C"),
   (pystr "unauthorized material use", pystr "C"),
   (pystr "embezzlement", pystr "C"),
   (pystr "illegal assembly", pystr "C"),
   (pystr "immorality", pystr "C"),
   (pystr "bullying", pystr "C"),
   (pystr "brawling", pystr "C"),
   (pystr "physical assault", pystr "C"),
   (pystr "drug use", pystr "C"),
   (pystr "false alarm", pystr "C"),
   (pystr "fire equipment misuse", pystr "C"),
   (pystr "drug possession", pystr "D"),
   (pystr "repeat drug use", pystr "D"),
   (pystr "possession of firearm", pystr "D"),
   (pystr "illegal fraternity", pystr "D"),
   (pystr "hazing", pystr "D"),
   (pystr "crime involving morality", pystr "D"),
   (pystr "sexual harassment", pystr "D"),
   (pystr "subversion or sedition", pystr "D")]

/-- Python `\w` (ASCII model): letters, digits, underscore. -/
def pyIsWordChar (c : Char) : Bool := c.isAlphanum || c == '_'

/-- Characters kept by `_clean_text`'s allow-list
`[^\w\s.,:;!?()-]` (everything else becomes a blank). -/
def allowedChar (c : Char) : Bool :=
  pyIsWordChar c || c.isWhitespace || (pystr ".,:;!?()-").contains c

/-- Python `text.replace('&', 'and')`. -/
def pyReplaceAmp (l : PyStr) : PyStr :=
  l.flatMap (fun c => if c == '&' then pystr "and" else [c])

/-- `OCRService._clean_text(text)`: collapse whitespace, blank out disallowed
characters, rewrite ampersands. -/
def ocrCleanText (text : PyStr) : PyStr :=
  if text.isEmpty then []
  else
    let t1 := collapseWs (pyStrip text)
    let t2 := t1.map (fun c => if allowedChar c then c else ' ')
    pyReplaceAmp t2

/-- Shared body of `_extract_name`/`_extract_name_faculty`/
`_extract_name_staff`: first capture longer than three characters, split into
`(first_name, last_name)`. -/
def ocrNameFromPatterns (re : ReOracle) (pats : List PyStr) (text : PyStr) :
    Option (PyStr × PyStr) :=
  pats.findSome? (fun pat =>
    (re pat text).findSome? (fun m =>
      let name_text := pyStrip m
      if !name_text.isEmpty && decide (3 < name_text.length) then
        let name_parts := pySplit name_text
        if 2 ≤ name_parts.length then
          some (pyStrip (name_parts.getD 0 []), pyStrip (pyIdxNeg name_parts 1))
        else if name_parts.length == 1 then
          some (pyStrip (name_parts.getD 0 []), [])
        else none
      else none))

/-- `OCRService._extract_name(text)` (student patterns). -/
def ocrExtractName (re : ReOracle) (text : PyStr) : Option (PyStr × PyStr) :=
  ocrNameFromPatterns re osStudentNamePatterns text

/-- `OCRService._extract_name_faculty(text)`. -/
def ocrExtractNameFaculty (re : ReOracle) (text : PyStr) : Option (PyStr × PyStr) :=
  ocrNameFromPatterns re osFacultyNamePatterns text

/-- `OCRService._extract_name_staff(text)`. -/
def ocrExtractNameStaff (re : ReOracle) (text : PyStr) : Option (PyStr × PyStr) :=
  ocrNameFromPatterns re osStaffNamePatterns text

/-- `OCRService._extract_program(text)`. -/
def ocrExtractProgram (re : ReOracle) (text : PyStr) : Option PyStr :=
  osProgramPatterns.findSome? (fun pat =>
    (re pat text).findSome? (fun m =>
      let program := pyStrip m
      if !program.isEmpty && decide (2 < program.length) then
        some (pyTitle (collapseWs program))
      else none))

/-- `OCRService._extract_section(text)`. -/
def ocrExtractSection (re : ReOracle) (text : PyStr) : Option PyStr :=
  osSectionPatterns.findSome? (fun pat =>
    (re pat text).findSome? (fun m =>
      let s := pyStrip m
      if !s.isEmpty && decide (s.length ≤ 10) then some (pyUpper s) else none))

/-- `OCRService._extract_department(text)`, with the ICT/GE/BM
canonicalisation table. -/
def ocrExtractDepartment (re : ReOracle) (text : PyStr) : Option PyStr :=
  osDepartmentPatterns.findSome? (fun pat =>
    (re pat text).findSome? (fun m =>
      let department := pyStrip m
      if !department.isEmpty && decide (2 < department.length) then
        let department := collapseWs department
        let dl := pyLower department
        if pyContains (pystr "ict") dl ||
            pyContains (pystr "information technology") dl then
          some (pystr "Information Communications Technology (ICT)")
        else if pyContains (pystr "ge") dl ||
            pyContains (pystr "general education") dl then
          some (pystr "General Education (GE)")
        else if pyContains (pystr "bm") dl || pyContains (pystr "business") dl then
          some (pystr "Business Management (BM)")
        else some (pyTitle department)
      else none))

/-- `OCRService._extract_position(text)`. -/
def ocrExtractPosition (re : ReOracle) (text : PyStr) : Option PyStr :=
  osPositionPatterns.findSome? (fun pat =>
    (re pat text).findSome? (fun m =>
      let position := pyStrip m
      if !position.isEmpty && decide (2 < position.length) then
        some (pyTitle (collapseWs position))
      else none))

/-- `OCRService._extract_category(text)`. -/
def ocrExtractCategory (re : ReOracle) (text : PyStr) : Option PyStr :=
  osCategoryPatterns.findSome? (fun pat =>
    (re pat text).findSome? (fun m =>
      let category := pyUpper (pyStrip m)
      if [pystr "A", pystr "B", pystr "C", pystr "D"].contains category then
        some category
      else none))

/-- `OCRService._extract_specific_offense(text)`: the category map first, the
pattern cascade second. -/
def ocrExtractSpecificOffense (re : ReOracle) (text : PyStr) : Option PyStr :=
  let text_lower := pyLower text
  match OFFENSE_CATEGORY_MAP.find? (fun e => pyContains e.1 text_lower) with
  | some e => some (pyTitle e.1)
  | none =>
    osSpecificOffensePatterns.findSome? (fun pat =>
      (re pat text).findSome? (fun m =>
        let offense := pyStrip m
        if !offense.isEmpty then some (pyTitle offense) else none))

/-- `OCRService._extract_description(text)`: first capture longer than ten
characters, whitespace-collapsed and truncated to 500 characters. -/
def ocrExtractDescription (re : ReOracle) (text : PyStr) : Option PyStr :=
  osDescriptionPatterns.findSome? (fun pat =>
    (re pat text).findSome? (fun m =>
      let description := pyStrip m
      if !description.isEmpty && decide (10 < description.length) then
        some ((collapseWs description).take 500)
      else none))

/-- `OCRService._map_offense_to_category(offense)`. -/
def ocrMapOffenseToCategory (offense : PyStr) : Option PyStr :=
  (OFFENSE_CATEGORY_MAP.find? (fun e => e.1 == pyLower offense)).map (·.2)

/-- The entity-specific dict: `extract_student_info` /
`extract_faculty_info` / `extract_staff_info` results (values may be `None`;
for a student dict the `.get('department')`/`.get('position')` lookups of
other shapes simply miss, and vice versa). -/
inductive EntityInfo where
  | studentInfo (last_name first_name program «section» : Option PyStr)
  | facultyInfo (last_name first_name department : Option PyStr)
  | staffInfo (last_name first_name position : Option PyStr)
  deriving DecidableEq

/-- `entity_info.get('first_name')`. -/
def EntityInfo.getFirstName : EntityInfo → Option PyStr
  | .studentInfo _ fn _ _ => fn
  | .facultyInfo _ fn _ => fn
  | .staffInfo _ fn _ => fn

/-- `entity_info.get('last_name')`. -/
def EntityInfo.getLastName : EntityInfo → Option PyStr
  | .studentInfo ln _ _ _ => ln
  | .facultyInfo ln _ _ => ln
  | .staffInfo ln _ _ => ln

/-- `entity_info.get('program')` (absent key on faculty/staff dicts). -/
def EntityInfo.getProgram : EntityInfo → Option PyStr
  | .studentInfo _ _ p _ => p
  | _ => none

/-- `entity_info.get('section')` (absent key on faculty/staff dicts). -/
def EntityInfo.getSection : EntityInfo → Option PyStr
  | .studentInfo _ _ _ s => s
  | _ => none

/-- `OCRService.extract_student_info(text)`. -/
def extract_student_info (re : ReOracle) (text : PyStr) : EntityInfo :=
  let text := ocrCleanText text
  let name_info := ocrExtractName re text
  .studentInfo (name_info.map (·.2)) (name_info.map (·.1))
    (ocrExtractProgram re text) (ocrExtractSection re text)

/-- `OCRService.extract_faculty_info(text)`. -/
def extract_faculty_info (re : ReOracle) (text : PyStr) : EntityInfo :=
  let text := ocrCleanText text
  let name_info := ocrExtractNameFaculty re text
  .facultyInfo (name_info.map (·.2)) (name_info.map (·.1))
    (ocrExtractDepartment re text)

/-- `OCRService.extract_staff_info(text)`. -/
def extract_staff_info (re : ReOracle) (text : PyStr) : EntityInfo :=
  let text := ocrCleanText text
  let name_info := ocrExtractNameStaff re text
  .staffInfo (name_info.map (·.2)) (name_info.map (·.1))
    (ocrExtractPosition re text)

/-- The offense dict of `OCRService.extract_offense_info`. -/
structure OffenseInfoRes where
  category : Option PyStr
  specific_offense : Option PyStr
  description : Option PyStr
  deriving DecidableEq

/-- `OCRService.extract_offense_info(text)`. -/
def extract_offense_info (re : ReOracle) (text : PyStr) : OffenseInfoRes :=
  let text := ocrCleanText text
  let category := ocrExtractCategory re text
  let specific_offense := ocrExtractSpecificOffense re text
  let description := ocrExtractDescription re text
  let category :=
    if !truthy category && truthy specific_offense then
      ocrMapOffenseToCategory (specific_offense.getD [])
    else category
  ⟨category, specific_offense, description⟩

/-- Python `round(x, 2)` on exact rationals (round half to even). -/
def pyRound2 (q : Rat) : Rat :=
  let x := 100 * q
  let f : Int := ⌊x⌋
  let r : Rat := x - f
  if r < 1/2 then (f : Rat) / 100
  else if (1 : Rat)/2 < r then ((f + 1 : Int) : Rat) / 100
  else (if f % 2 = 0 then (f : Rat) else ((f + 1 : Int) : Rat)) / 100

/-- `OCRService._calculate_confidence(student_info, offense_info)`: one point
per populated field among first/last name, program, section, category and
specific offense, divided by six and rounded to two decimals. -/
def ocrCalculateConfidence (student_info : EntityInfo)
    (offense_info : OffenseInfoRes) : Rat :=
  let total_fields : Rat := 6
  let confidence : Rat := 0
  let confidence := if truthy student_info.getFirstName then confidence + 1 else confidence
  let confidence := if truthy student_info.getLastName then confidence + 1 else confidence
  let confidence := if truthy student_info.getProgram then confidence + 1 else confidence
  let confidence := if truthy student_info.getSection then confidence + 1 else confidence
  let confidence := if truthy offense_info.category then confidence + 1 else confidence
  let confidence := if truthy offense_info.specific_offense then confidence + 1 else confidence
  pyRound2 (confidence / total_fields)

/-- The merged dict returned by `OCRService.extract_all_info`. -/
structure OCRAllResult where
  entity : EntityInfo
  category : Option PyStr
  specific_offense : Option PyStr
  description : Option PyStr
  extraction_confidence : Rat
  extracted_at : PyStr
  deriving DecidableEq

/-- `OCRService.extract_all_info(text, entity_type)`; `now` models the
`datetime.now().isoformat()` timestamp taken at the end. -/
def ocr_extract_all_info (re : ReOracle) (text : PyStr) (entity_type : PyStr)
    (now : PyStr) : OCRAllResult :=
  let offense_info := extract_offense_info re text
  let entity_info :=
    if entity_type == pystr "faculty" then extract_faculty_info re text
    else if entity_type == pystr "staff" then extract_staff_info re text
    else extract_student_info re text
  { entity := entity_info
    category := offense_info.category
    specific_offense := offense_info.specific_offense
    description := offense_info.description
    extraction_confidence := ocrCalculateConfidence entity_info offense_info
    extracted_at := now }

/-! ## Claim-side definitions and concrete fixtures -/

/-- The first-declared maximal-severity element of a list (claim-side
characterisation of "stable descending sort, take the head"). -/
def firstArgmaxSev : List DetectedOffense → Option DetectedOffense
  | [] => none
  | x :: xs =>
    match firstArgmaxSev xs with
    | none => some x
    | some y => if x.severity < y.severity then some y else some x

/-- The particle rule of claim C2 as amended, written by scanning the word
list from the end (third-from-last word first, then second-from-last),
with particle set `de/dela/del/van/von`. -/
def efRuleSplitSpec (full_name : PyStr) : Option (PyStr × PyStr) :=
  match (pySplit full_name).reverse with
  | w1 :: w2 :: w3 :: rest =>
    if ouParticles.contains (pyLower w3) then
      some (pyJoinSp rest.reverse, pyJoinSp [w3, w2, w1])
    else if ouParticles.contains (pyLower w2) then
      some (pyJoinSp (w3 :: rest).reverse, pyJoinSp [w2, w1])
    else some (pyJoinSp (w2 :: w3 :: rest).reverse, w1)
  | [w1, w2] =>
    if ouParticles.contains (pyLower w2) then some ([], pyJoinSp [w2, w1])
    else some (w2, w1)
  | _ => none

/-- Claim C7's confidence formula as stated: non-empty count over the set
"name parts, section/program, date, offense category, offense type" (six
fields, section and program merged, a date field that the
`_calculate_confidence` inputs do not even carry), divided by the total. -/
def claimConfidenceSpec (student_info : EntityInfo)
    (offense_info : OffenseInfoRes) : Rat :=
  let b : Bool → Rat := fun x => if x then 1 else 0
  let dateField : Option PyStr := none
  pyRound2 ((b (truthy student_info.getFirstName) +
    b (truthy student_info.getLastName) +
    b (truthy student_info.getProgram || truthy student_info.getSection) +
    b (truthy dateField) +
    b (truthy offense_info.category) +
    b (truthy offense_info.specific_offense)) / 6)

/-- The number of populated fields among the six that
`_calculate_confidence` actually inspects. -/
def confidenceFieldCount (student_info : EntityInfo)
    (offense_info : OffenseInfoRes) : Nat :=
  ([student_info.getFirstName, student_info.getLastName,
    student_info.getProgram, student_info.getSection,
    offense_info.category, offense_info.specific_offense].countP truthy)

/-- Oracle for runs in which no regular expression matches anything. -/
def reNone : ReOracle := fun _ _ => []

/-- Identity model of `list(set(...))` (no duplicates to merge). -/
def pysetId : List PyStr → List PyStr := fun l => l

/-- A small concrete taxonomy: two severity-3 entries and one severity-1
entry, keyword-matched. -/
def sampleTax : Taxonomy :=
  [(pystr "THEFT1", ⟨pystr "Theft", pystr "C", 3, none, [pystr "THEFT"]⟩),
   (pystr "FIGHT1", ⟨pystr "Brawling", pystr "C", 3, none, [pystr "FIGHT"]⟩),
   (pystr "NOISE1", ⟨pystr "Noise", pystr "A", 1, none, [pystr "NOISE"]⟩)]

/-- Concrete description matching all three `sampleTax` entries. -/
def sampleText : PyStr := pystr "theft fight noise"

/-- Oracle for the C3 counterexample: the template holds only a last name,
and the narrative scanner finds an offender. -/
def reC3cex : ReOracle := fun pat _ =>
  if pat == tplLastNamePat then [pystr "Cruz"]
  else if pat == idContextPatterns.getD 0 [] then [pystr "Juan Dela Cruz"]
  else []

/-- Oracle for the C3 witness: template first and last names both present,
and a narrative offender also found. -/
def reC3wit : ReOracle := fun pat _ =>
  if pat == tplLastNamePat then [pystr "Cruz"]
  else if pat == tplFirstNamePat then [pystr "Juan"]
  else if pat == idContextPatterns.getD 0 [] then [pystr "Pedro Santos"]
  else []

/-- Oracle for the C9 witness: template first and last name fields found. -/
def reC9wit : ReOracle := fun pat _ =>
  if pat == tplLastNamePat then [pystr "Cruz"]
  else if pat == tplFirstNamePat then [pystr "Juan"]
  else []

/-- Oracle for the C10 witness: the first description pattern captures a
non-trivial description. -/
def reC10wit : ReOracle := fun pat _ =>
  if pat == osDescriptionPatterns.getD 0 [] then
    [pystr "smoking inside the campus gym"]
  else []

/-- Trivial substitution oracle (returns the subject unchanged). -/
def resubId : ReSub := fun _ _ s => s

/-- Trivial strptime oracle (every parse fails). -/
def strptimeNone : StrpTime := fun _ _ => none

/-- The first character (if any) is not whitespace. -/
def noLeadWsP (l : PyStr) : Prop :=
  ∀ c, l.head? = some c → isWsC c = false

/-- The last character (if any) is not whitespace. -/
def noTrailWsP (l : PyStr) : Prop :=
  ∀ c, l.getLast? = some c → isWsC c = false

/-! ## Helper lemmas -/

theorem head?_insertDesc (x : DetectedOffense) (l : List DetectedOffense) :
    (insertDesc x l).head? =
      some (match l.head? with
            | none => x
            | some y => if x.severity < y.severity then y else x) := by
  cases l with
  | nil => rfl
  | cons y ys =>
    simp only [insertDesc, List.head?_cons]
    by_cases h : x.severity < y.severity <;> simp [h]

theorem head?_sortBySeverityDesc (l : List DetectedOffense) :
    (sortBySeverityDesc l).head? = firstArgmaxSev l := by
  induction l with
  | nil => rfl
  | cons x xs ih =>
    simp only [sortBySeverityDesc, firstArgmaxSev, head?_insertDesc, ← ih]
    cases (sortBySeverityDesc xs).head? with
    | none => rfl
    | some y => by_cases h : x.severity < y.severity <;> simp [h]

theorem firstArgmaxSev_eq_none_iff (l : List DetectedOffense) :
    firstArgmaxSev l = none ↔ l = [] := by
  cases l with
  | nil => simp [firstArgmaxSev]
  | cons x xs =>
    simp only [firstArgmaxSev]
    cases firstArgmaxSev xs with
    | none => simp
    | some y => by_cases h : x.severity < y.severity <;> simp [h]

theorem firstArgmaxSev_spec (l : List DetectedOffense) (m : DetectedOffense)
    (h : firstArgmaxSev l = some m) :
    (∃ l1 l2, l = l1 ++ m :: l2 ∧ ∀ e ∈ l1, e.severity < m.severity) ∧
      ∀ e ∈ l, e.severity ≤ m.severity := by
  induction l generalizing m with
  | nil => simp [firstArgmaxSev] at h
  | cons x xs ih =>
    simp only [firstArgmaxSev] at h
    cases hx : firstArgmaxSev xs with
    | none =>
      rw [hx] at h
      have hxs : xs = [] := (firstArgmaxSev_eq_none_iff xs).mp hx
      subst hxs
      simp only [Option.some.injEq] at h
      subst h
      exact ⟨⟨[], [], by simp, by simp⟩, by simp⟩
    | some y =>
      rw [hx] at h
      obtain ⟨⟨l1, l2, hsplit, hlt⟩, hle⟩ := ih y hx
      by_cases hxy : x.severity < y.severity
      · simp only [if_pos hxy, Option.some.injEq] at h
        subst h
        refine ⟨⟨x :: l1, l2, by simp [hsplit], ?_⟩, ?_⟩
        · intro e he
          rcases List.mem_cons.mp he with rfl | he
          · exact hxy
          · exact hlt e he
        · intro e he
          rcases List.mem_cons.mp he with rfl | he
          · exact le_of_lt hxy
          · exact hle e he
      · simp only [if_neg hxy, Option.some.injEq] at h
        subst h
        refine ⟨⟨[], xs, by simp, by simp⟩, ?_⟩
        intro e he
        rcases List.mem_cons.mp he with rfl | he
        · exact le_refl _
        · exact le_trans (hle e he) (not_lt.mp hxy)

theorem detect_eq_firstArgmaxSev (re : ReOracle) (tax : Taxonomy) (text : PyStr)
    (hm : matchedOffenses re tax text ≠ []) :
    firstArgmaxSev (matchedOffenses re tax text)
      = some (detect_offense_from_text re tax text) := by
  unfold detect_offense_from_text
  cases hs : sortBySeverityDesc (matchedOffenses re tax text) with
  | nil =>
    have := head?_sortBySeverityDesc (matchedOffenses re tax text)
    rw [hs] at this
    exact absurd ((firstArgmaxSev_eq_none_iff _).mp this.symm) hm
  | cons best rest =>
    have := head?_sortBySeverityDesc (matchedOffenses re tax text)
    rw [hs] at this
    simpa using this.symm

/-- C1: `detect_offense_from_text` returns a matched taxonomy entry of
maximal severity; whenever anything matches, the result is the
first-declared matched entry among those of maximal severity (so two
matches with severities `s1 > s2` yield a result of severity at least
`s1`, and equal-severity ties go to taxonomy declaration order).  The
function is pure, so this holds across repeated runs. -/
theorem detect_offense_severity_max (re : ReOracle) (tax : Taxonomy)
    (text : PyStr) :
    (∀ e ∈ matchedOffenses re tax text,
        e.severity ≤ (detect_offense_from_text re tax text).severity) ∧
    (matchedOffenses re tax text ≠ [] →
        ∃ l1 l2,
          matchedOffenses re tax text
              = l1 ++ detect_offense_from_text re tax text :: l2 ∧
            ∀ e ∈ l1,
              e.severity < (detect_offense_from_text re tax text).severity) := by
  by_cases hm : matchedOffenses re tax text = []
  · refine ⟨?_, fun h => absurd hm h⟩
    intro e he
    rw [hm] at he
    exact absurd he (List.not_mem_nil e)
  · have h := detect_eq_firstArgmaxSev re tax text hm
    obtain ⟨⟨l1, l2, hsplit, hlt⟩, hle⟩ := firstArgmaxSev_spec _ _ h
    exact ⟨hle, fun _ => ⟨l1, l2, hsplit, hlt⟩⟩

/-- Witness for C1 at a concrete taxonomy and text: three matches, two of
them tied at the maximal severity. -/
theorem detect_offense_severity_max_witness :
    matchedOffenses reNone sampleTax sampleText ≠ [] ∧
    ∃ l1 l2,
      matchedOffenses reNone sampleTax sampleText
          = l1 ++ detect_offense_from_text reNone sampleTax sampleText :: l2 ∧
        ∀ e ∈ l1,
          e.severity <
            (detect_offense_from_text reNone sampleTax sampleText).severity :=
  ⟨by decide, (detect_offense_severity_max reNone sampleTax sampleText).2 (by decide)⟩

theorem pyIdxNeg_concat3 (t : List PyStr) (w3 w2 w1 : PyStr) :
    pyIdxNeg (t ++ [w3, w2, w1]) 3 = w3 := by
  unfold pyIdxNeg
  rw [show (t ++ [w3, w2, w1]).length - 3 = t.length by simp]
  rw [List.getD_append_right _ _ _ _ (le_refl _)]
  simp

theorem pyIdxNeg_concat2 (t : List PyStr) (w2 w1 : PyStr) :
    pyIdxNeg (t ++ [w2, w1]) 2 = w2 := by
  unfold pyIdxNeg
  rw [show (t ++ [w2, w1]).length - 2 = t.length by simp]
  rw [List.getD_append_right _ _ _ _ (le_refl _)]
  simp

theorem pyIdxNeg_concat1 (t : List PyStr) (w1 : PyStr) :
    pyIdxNeg (t ++ [w1]) 1 = w1 := by
  unfold pyIdxNeg
  rw [show (t ++ [w1]).length - 1 = t.length by simp]
  rw [List.getD_append_right _ _ _ _ (le_refl _)]
  simp

theorem extractFieldsNameSplit_eq_rule (full_name : PyStr) :
    extractFieldsNameSplit full_name = efRuleSplitSpec full_name := by
  unfold extractFieldsNameSplit efRuleSplitSpec
  generalize pySplit full_name = ws
  have hws := (List.reverse_reverse ws).symm
  cases hr : ws.reverse with
  | nil =>
    rw [hr] at hws
    subst hws
    simp
  | cons w1 t1 =>
    cases t1 with
    | nil =>
      rw [hr] at hws
      subst hws
      simp
    | cons w2 t2 =>
      cases t2 with
      | nil =>
        rw [hr] at hws
        subst hws
        by_cases h2 : ouParticles.contains (pyLower w2) = true <;>
          simp [h2, pyIdxNeg, pyJoinSp, List.intercalate]
      | cons w3 t3 =>
        rw [hr] at hws
        have hws3 : ws = t3.reverse ++ [w3, w2, w1] := by
          simp [hws, List.reverse_cons, List.append_assoc]
        have hlen : ws.length = t3.length + 3 := by simp [hws3]
        have hidx3 : pyIdxNeg ws 3 = w3 := by
          rw [hws3]; exact pyIdxNeg_concat3 _ _ _ _
        have hidx2 : pyIdxNeg ws 2 = w2 := by
          rw [hws3, show t3.reverse ++ [w3, w2, w1]
              = (t3.reverse ++ [w3]) ++ [w2, w1] by simp]
          exact pyIdxNeg_concat2 _ _ _
        have hidx1 : pyIdxNeg ws 1 = w1 := by
          rw [hws3, show t3.reverse ++ [w3, w2, w1]
              = (t3.reverse ++ [w3, w2]) ++ [w1] by simp]
          exact pyIdxNeg_concat1 _ _
        have htake3 : ws.take (ws.length - 3) = t3.reverse := by
          rw [hws3, show (t3.reverse ++ [w3, w2, w1]).length - 3
              = t3.reverse.length by simp]
          exact List.take_left _ _
        have hdrop3 : ws.drop (ws.length - 3) = [w3, w2, w1] := by
          rw [hws3, show (t3.reverse ++ [w3, w2, w1]).length - 3
              = t3.reverse.length by simp]
          exact List.drop_left _ _
        have htake2 : ws.take (ws.length - 2) = t3.reverse ++ [w3] := by
          rw [hws3, show t3.reverse ++ [w3, w2, w1]
              = (t3.reverse ++ [w3]) ++ [w2, w1] by simp,
            show ((t3.reverse ++ [w3]) ++ [w2, w1]).length - 2
              = (t3.reverse ++ [w3]).length by simp]
          exact List.take_left _ _
        have hdrop2 : ws.drop (ws.length - 2) = [w2, w1] := by
          rw [hws3, show t3.reverse ++ [w3, w2, w1]
              = (t3.reverse ++ [w3]) ++ [w2, w1] by simp,
            show ((t3.reverse ++ [w3]) ++ [w2, w1]).length - 2
              = (t3.reverse ++ [w3]).length by simp]
          exact List.drop_left _ _
        have htake1 : ws.take (ws.length - 1) = t3.reverse ++ [w3, w2] := by
          rw [hws3, show t3.reverse ++ [w3, w2, w1]
              = (t3.reverse ++ [w3, w2]) ++ [w1] by simp,
            show ((t3.reverse ++ [w3, w2]) ++ [w1]).length - 1
              = (t3.reverse ++ [w3, w2]).length by simp]
          exact List.take_left _ _
        have h3 : decide (3 ≤ ws.length) = true := by simp [hlen]
        have h2 : decide (2 ≤ ws.length) = true := by simp [hlen]
        have h2p : 2 ≤ ws.length := by rw [hlen]; omega
        simp only [hidx3, hidx2, hidx1, htake3, hdrop3, htake2, hdrop2,
          htake1, h3, h2, Bool.true_and]
        by_cases hp3 : ouParticles.contains (pyLower w3) = true <;>
          by_cases hp2 : ouParticles.contains (pyLower w2) = true <;>
            simp [hp3, hp2, h2p, List.reverse_cons, List.append_assoc]

/-- C4: the compound-surname split applied to identified offenders in
`enhanced_extraction.extract_all_info` and the one inside
`extract_fields_from_text` agree on every full-name string. -/
theorem narrative_splits_agree (full_name : PyStr) :
    extractFieldsNameSplit full_name = enhancedNameSplit full_name := rfl

/-- C2 (counterexample): the claim's particle rule fails on the cited code.
The narrative-service splitter maps the claim's own example
`"Juan Miguel De La Cruz"` to `("Juan", "Miguel De La Cruz")`, not to
`("Juan Miguel", "De La Cruz")`, and the extract-fields splitter does not
treat `santa` as a particle: `"Maria Santa Cruz"` becomes
`("Maria Santa", "Cruz")`, not `("Maria", "Santa Cruz")`. -/
theorem particle_split_cex :
    nosNameSplit (pySplit (pystr "Juan Miguel De La Cruz"))
        ≠ some (pystr "Juan Miguel", pystr "De La Cruz") ∧
      nosNameSplit (pySplit (pystr "Juan Miguel De La Cruz"))
        = some (pystr "Juan", pystr "Miguel De La Cruz") ∧
      extractFieldsNameSplit (pystr "Maria Santa Cruz")
        ≠ some (pystr "Maria", pystr "Santa Cruz") ∧
      extractFieldsNameSplit (pystr "Maria Santa Cruz")
        = some (pystr "Maria Santa", pystr "Cruz") := by
  refine ⟨by decide, by decide, by decide, by decide⟩

/-- C2 (amended): the extract-fields splitter follows the particle rule with
particle set `de/dela/del/van/von` (no `san`/`santa`), checking the
third-from-last word before the second-from-last; the claim's three examples
hold on it.  The narrative-service splitter uses a different rule (particles
`de/dela/del/san/santa`, anchored after the first word). -/
theorem particle_split_amended :
    (∀ full_name : PyStr,
        extractFieldsNameSplit full_name = efRuleSplitSpec full_name) ∧
      extractFieldsNameSplit (pystr "Juan Miguel De La Cruz")
        = some (pystr "Juan Miguel", pystr "De La Cruz") ∧
      extractFieldsNameSplit (pystr "Maria Del Rosario")
        = some (pystr "Maria", pystr "Del Rosario") ∧
      extractFieldsNameSplit (pystr "John Doe")
        = some (pystr "John", pystr "Doe") :=
  ⟨extractFieldsNameSplit_eq_rule, by decide, by decide, by decide⟩

theorem efTail_preserves_name (re : ReOracle) (text : PyStr) (f : Fields) :
    (efDescriptionStage text
        (efDateStage re text
          (efSectionStage re text (efProgramStage re text f)))).first_name
        = f.first_name ∧
      (efDescriptionStage text
          (efDateStage re text
            (efSectionStage re text (efProgramStage re text f)))).last_name
        = f.last_name := by
  have hp : ∀ g : Fields, (efProgramStage re text g).first_name = g.first_name ∧
      (efProgramStage re text g).last_name = g.last_name := by
    intro g
    unfold efProgramStage
    split
    · split <;> exact ⟨rfl, rfl⟩
    · exact ⟨rfl, rfl⟩
  have hs : ∀ g : Fields, (efSectionStage re text g).first_name = g.first_name ∧
      (efSectionStage re text g).last_name = g.last_name := by
    intro g
    unfold efSectionStage
    split
    · split <;> exact ⟨rfl, rfl⟩
    · exact ⟨rfl, rfl⟩
  have hd : ∀ g : Fields, (efDateStage re text g).first_name = g.first_name ∧
      (efDateStage re text g).last_name = g.last_name := by
    intro g
    unfold efDateStage
    split
    · split <;> exact ⟨rfl, rfl⟩
    · exact ⟨rfl, rfl⟩
  have hde : ∀ g : Fields, (efDescriptionStage text g).first_name = g.first_name ∧
      (efDescriptionStage text g).last_name = g.last_name := by
    intro g
    unfold efDescriptionStage
    split <;> exact ⟨rfl, rfl⟩
  constructor
  · rw [(hde _).1, (hd _).1, (hs _).1, (hp _).1]
  · rw [(hde _).2, (hd _).2, (hs _).2, (hp _).2]

theorem isEmpty_false_of_ne_nil {l : PyStr} (h : l ≠ []) : l.isEmpty = false := by
  cases l with
  | nil => exact absurd rfl h
  | cons a t => rfl

/-- C3 (counterexample): in `enhanced_extraction.extract_all_info` the
offender-based narrative override fires whenever *either* name field is
empty, so a template-derived last name (`"Last Name: Cruz"` with no first
name) is overwritten by the narrative offender name `"Juan Dela Cruz"`. -/
theorem template_precedence_cex :
    templateField reC3cex (pystr "t") tplLastNamePat = pystr "Cruz" ∧
      (extract_fields_from_text reC3cex (pystr "t")).last_name = pystr "Cruz" ∧
      (enhanced_extract_all_info reC3cex pysetId [] (pystr "t")).fields.last_name
        = pystr "Dela Cruz" ∧
      (enhanced_extract_all_info reC3cex pysetId [] (pystr "t")).fields.first_name
        = pystr "Juan" := by
  refine ⟨by decide, by decide, by decide, by decide⟩

/-- C3 (amended): inside `extract_fields_from_text` the narrative fallback
runs only when both template name fields are empty, so a template-derived
name (either field non-empty) survives that function unchanged; in
`enhanced_extraction.extract_all_info` the template name survives whenever
*both* template fields are non-empty (with only one of them present the
offender override may replace it). -/
theorem template_precedence_amended (re : ReOracle)
    (pyset : List PyStr → List PyStr) (tax : Taxonomy) (text : PyStr) :
    ((templateField re text tplFirstNamePat ≠ [] ∨
        templateField re text tplLastNamePat ≠ []) →
      (extract_fields_from_text re text).first_name
          = templateField re text tplFirstNamePat ∧
        (extract_fields_from_text re text).last_name
          = templateField re text tplLastNamePat) ∧
    ((templateField re text tplFirstNamePat ≠ [] ∧
        templateField re text tplLastNamePat ≠ []) →
      (enhanced_extract_all_info re pyset tax text).fields.first_name
          = templateField re text tplFirstNamePat ∧
        (enhanced_extract_all_info re pyset tax text).fields.last_name
          = templateField re text tplLastNamePat) := by
  have hmain : ∀ _ : templateField re text tplFirstNamePat ≠ [] ∨
      templateField re text tplLastNamePat ≠ [],
      (extract_fields_from_text re text).first_name
          = templateField re text tplFirstNamePat ∧
        (extract_fields_from_text re text).last_name
          = templateField re text tplLastNamePat := by
    intro h
    have hcond : ((efTemplateStage re text).first_name.isEmpty &&
        (efTemplateStage re text).last_name.isEmpty) = false := by
      rcases h with h | h
      · have : (efTemplateStage re text).first_name.isEmpty = false :=
          isEmpty_false_of_ne_nil h
        simp [this]
      · have : (efTemplateStage re text).last_name.isEmpty = false :=
          isEmpty_false_of_ne_nil h
        simp [this]
    have hname : efNameStage re text (efTemplateStage re text)
        = efTemplateStage re text := by
      unfold efNameStage
      simp [hcond]
    unfold extract_fields_from_text
    rw [hname]
    exact efTail_preserves_name re text (efTemplateStage re text)
  refine ⟨hmain, ?_⟩
  rintro ⟨h1, h2⟩
  obtain ⟨ha1, ha2⟩ := hmain (Or.inl h1)
  have hor : ((extract_fields_from_text re text).first_name.isEmpty ||
      (extract_fields_from_text re text).last_name.isEmpty) = false := by
    rw [ha1, ha2, isEmpty_false_of_ne_nil h1, isEmpty_false_of_ne_nil h2]
    rfl
  unfold enhanced_extract_all_info
  simp only [hor, Bool.and_false, Bool.false_eq_true, if_false, ite_false]
  exact ⟨ha1, ha2⟩

/-- Witness for C3 at a concrete oracle: both template fields present, a
narrative offender also detected, and the template name survives. -/
theorem template_precedence_amended_witness :
    (templateField reC3wit (pystr "t") tplFirstNamePat ≠ [] ∧
        templateField reC3wit (pystr "t") tplLastNamePat ≠ []) ∧
      ((extract_fields_from_text reC3wit (pystr "t")).first_name
          = templateField reC3wit (pystr "t") tplFirstNamePat ∧
        (extract_fields_from_text reC3wit (pystr "t")).last_name
          = templateField reC3wit (pystr "t") tplLastNamePat) ∧
      ((enhanced_extract_all_info reC3wit pysetId [] (pystr "t")).fields.first_name
          = templateField reC3wit (pystr "t") tplFirstNamePat ∧
        (enhanced_extract_all_info reC3wit pysetId [] (pystr "t")).fields.last_name
          = templateField reC3wit (pystr "t") tplLastNamePat) :=
  ⟨⟨by decide, by decide⟩,
   (template_precedence_amended reC3wit pysetId [] (pystr "t")).1
     (Or.inl (by decide)),
   (template_precedence_amended reC3wit pysetId [] (pystr "t")).2
     ⟨by decide, by decide⟩⟩

/-- C9: every name returned by `identify_offender_from_text` has at least two
whitespace-separated words, contains no digit, and its lowercased form is not
one of the four known false positives. -/
theorem identify_offender_invariants (re : ReOracle)
    (pyset : List PyStr → List PyStr) (text : PyStr) (name : PyStr)
    (h : name ∈ identify_offender_from_text re pyset text) :
    2 ≤ (pySplit name).length ∧ (∀ c ∈ name, c.isDigit = false) ∧
      pyLower name ∉ idFalsePositives := by
  unfold identify_offender_from_text at h
  have hf : idFinalFilter name = true := (List.mem_filter.mp h).2
  unfold idFinalFilter at hf
  rw [Bool.and_eq_true, Bool.and_eq_true] at hf
  obtain ⟨⟨h1, h2⟩, h3⟩ := hf
  refine ⟨of_decide_eq_true h1, ?_, ?_⟩
  · intro c hc
    by_contra hd
    have : name.any Char.isDigit = true :=
      List.any_eq_true.mpr ⟨c, hc, by simpa using hd⟩
    rw [this] at h2
    exact absurd h2 (by decide)
  · intro hmem
    have : idFalsePositives.contains (pyLower name) = true := by
      exact List.elem_eq_true_of_mem hmem
    rw [this] at h3
    exact absurd h3 (by decide)

/-- Witness for C9 at a concrete oracle: `"Juan Cruz"` is returned and
satisfies the invariant. -/
theorem identify_offender_invariants_witness :
    (pystr "Juan Cruz") ∈ identify_offender_from_text reC9wit pysetId (pystr "t") ∧
      (2 ≤ (pySplit (pystr "Juan Cruz")).length ∧
        (∀ c ∈ pystr "Juan Cruz", c.isDigit = false) ∧
        pyLower (pystr "Juan Cruz") ∉ idFalsePositives) :=
  ⟨by decide,
   identify_offender_invariants reC9wit pysetId (pystr "t") _ (by decide)⟩

/-- C10: the narrative extractor truncates its description to 500 characters
(`text[:500]`), and every non-`None` description produced by
`OCRService.extract_offense_info` (via `_extract_description`) is truncated
to 500 characters as well. -/
theorem description_length_bound :
    (∀ (re : ReOracle) (resub : ReSub) (strptime : StrpTime)
        (text entity_type : PyStr),
        (extract_all_from_narrative re resub strptime text
            entity_type).description.length ≤ 500) ∧
    (∀ (re : ReOracle) (text d : PyStr),
        (extract_offense_info re text).description = some d →
          d.length ≤ 500) := by
  constructor
  · intro re resub strptime text entity_type
    show (text.take 500).length ≤ 500
    rw [List.length_take]
    exact min_le_left _ _
  · intro re text d h
    have h' : ocrExtractDescription re (ocrCleanText text) = some d := h
    obtain ⟨pat, _, hpat⟩ := List.exists_of_findSome?_eq_some h'
    obtain ⟨m, _, hm⟩ := List.exists_of_findSome?_eq_some hpat
    by_cases hc : (!(pyStrip m).isEmpty && decide (10 < (pyStrip m).length)) = true
    · rw [if_pos hc] at hm
      have hd : d = (collapseWs (pyStrip m)).take 500 :=
        (Option.some.injEq _ _ ▸ hm).symm
      rw [hd, List.length_take]
      exact min_le_left _ _
    · rw [if_neg hc] at hm
      exact absurd hm (by simp)

/-- Witness for C10: a concrete oracle whose description capture survives the
length filter. -/
theorem description_length_bound_witness :
    (extract_offense_info reC10wit (pystr "t")).description
        = some (pystr "smoking inside the campus gym") ∧
      (pystr "smoking inside the campus gym").length ≤ 500 :=
  ⟨by decide,
   description_length_bound.2 reC10wit (pystr "t") _ (by decide)⟩

theorem pyRound2_div6_bounds (k : Nat) (hk : k ≤ 6) :
    0 ≤ pyRound2 ((k : Rat) / 6) ∧ pyRound2 ((k : Rat) / 6) ≤ 1 := by
  interval_cases k <;> constructor <;> norm_num [pyRound2]

/-- C7 (amended): `_calculate_confidence` equals the populated-field count
over the six fields it actually inspects (first/last name, program, section,
offense category, specific offense — the incident date is *not* among them,
and program/section count separately), divided by six and rounded to two
decimals; consequently it always lies in `[0, 1]`. -/
theorem confidence_formula_amended (student_info : EntityInfo)
    (offense_info : OffenseInfoRes) :
    ocrCalculateConfidence student_info offense_info
        = pyRound2 ((confidenceFieldCount student_info offense_info : Rat) / 6) ∧
      0 ≤ ocrCalculateConfidence student_info offense_info ∧
        ocrCalculateConfidence student_info offense_info ≤ 1 := by
  have heq : ocrCalculateConfidence student_info offense_info
      = pyRound2 ((confidenceFieldCount student_info offense_info : Rat) / 6) := by
    unfold ocrCalculateConfidence confidenceFieldCount
    simp only [List.countP_cons, List.countP_nil]
    cases truthy student_info.getFirstName <;>
      cases truthy student_info.getLastName <;>
        cases truthy student_info.getProgram <;>
          cases truthy student_info.getSection <;>
            cases truthy offense_info.category <;>
              cases truthy offense_info.specific_offense <;>
                norm_num
  have hk : confidenceFieldCount student_info offense_info ≤ 6 :=
    le_trans (List.countP_le_length _) (by simp)
  exact ⟨heq, heq ▸ pyRound2_div6_bounds _ hk⟩

/-- C7 (counterexample): the formula claimed (date counted, section/program
merged) disagrees with the code on a record with both a program and a
section: the code computes `round(4/6, 2) = 0.67`, the claimed formula
`round(3/6, 2) = 0.5`. -/
theorem confidence_formula_cex :
    ocrCalculateConfidence
        (.studentInfo (some (pystr "Cruz")) (some (pystr "Juan"))
          (some (pystr "Bsit")) (some (pystr "3A"))) ⟨none, none, none⟩
        = 67/100 ∧
      claimConfidenceSpec
          (.studentInfo (some (pystr "Cruz")) (some (pystr "Juan"))
            (some (pystr "Bsit")) (some (pystr "3A"))) ⟨none, none, none⟩
        = 1/2 ∧
      (67/100 : Rat) ≠ 1/2 := by
  refine ⟨?_, ?_, by norm_num⟩
  · simp only [ocrCalculateConfidence, truthy, EntityInfo.getFirstName,
      EntityInfo.getLastName, EntityInfo.getProgram, EntityInfo.getSection,
      pystr]
    norm_num [pyRound2]
  · simp only [claimConfidenceSpec, truthy, EntityInfo.getFirstName,
      EntityInfo.getLastName, EntityInfo.getProgram, EntityInfo.getSection,
      pystr]
    norm_num [pyRound2]

theorem mem_of_getLast?_eq {l : PyStr} {a : Char} (h : l.getLast? = some a) :
    a ∈ l := by
  rw [List.getLast?_eq_head?_reverse] at h
  cases hr : l.reverse with
  | nil => rw [hr] at h; exact absurd h (by simp)
  | cons x xs =>
    rw [hr] at h
    simp only [List.head?_cons, Option.some.injEq] at h
    subst h
    exact List.mem_reverse.mp (hr ▸ List.mem_cons_self x xs)

theorem cspGo_idem (l : PyStr) : ∀ b, cspGo b (cspGo b l) = cspGo b l := by
  induction l with
  | nil => intro b; rfl
  | cons c cs ih =>
    intro b
    by_cases hc : isWsC c = true
    · cases b with
      | true => simp [cspGo, hc, ih]
      | false =>
        simp only [cspGo, hc, if_true, Bool.false_eq_true, if_false]
        have hsp : isWsC ' ' = true := by decide
        simp [cspGo, hsp, ih]
    · simp [cspGo, hc, ih]

theorem cspGo_eq_nil {l : PyStr} : ∀ {b}, cspGo b l = [] →
    ∀ c ∈ l, isWsC c = true := by
  induction l with
  | nil => intro b _ c hc; exact absurd hc (List.not_mem_nil c)
  | cons c cs ih =>
    intro b h x hx
    by_cases hc : isWsC c = true
    · cases b with
      | true =>
        simp only [cspGo, hc, if_true] at h
        rcases List.mem_cons.mp hx with rfl | hx
        · exact hc
        · exact ih h x hx
      | false => simp [cspGo, hc] at h
    · simp [cspGo, hc] at h

theorem cspGo_noTrail {l : PyStr} (h : noTrailWsP l) :
    ∀ b, noTrailWsP (cspGo b l) := by
  induction l with
  | nil => intro b c hc; exact absurd hc (by simp [cspGo])
  | cons c cs ih =>
    intro b
    by_cases hc : isWsC c = true
    · cases cs with
      | nil => exact absurd (h c rfl) (by simp [hc])
      | cons d ds =>
        have hcs : noTrailWsP (d :: ds) := by
          intro x hx
          exact h x ((List.getLast?_cons_cons).symm ▸ hx)
        cases b with
        | true =>
          have hstep : cspGo true (c :: d :: ds) = cspGo true (d :: ds) := by
            simp [cspGo, hc]
          rw [hstep]
          exact ih hcs true
        | false =>
          have hstep : cspGo false (c :: d :: ds)
              = ' ' :: cspGo true (d :: ds) := by
            simp [cspGo, hc]
          rw [hstep]
          intro x hx
          cases hX : cspGo true (d :: ds) with
          | nil =>
            have hall := cspGo_eq_nil hX
            cases hgl : (d :: ds).getLast? with
            | none => exact absurd hgl (by simp)
            | some e =>
              have he : e ∈ d :: ds := mem_of_getLast?_eq hgl
              exact absurd (hall e he) (by simp [hcs e hgl])
          | cons y ys =>
            rw [hX, List.getLast?_cons_cons] at hx
            exact ih hcs true x (hX ▸ hx)
    · have hstep : ∀ b', cspGo b' (c :: cs) = c :: cspGo false cs := by
        intro b'; simp [cspGo, hc]
      rw [hstep b]
      cases cs with
      | nil =>
        intro x hx
        simp only [cspGo, List.getLast?_singleton, Option.some.injEq] at hx
        subst hx
        exact eq_false_of_ne_true hc
      | cons d ds =>
        have hcs : noTrailWsP (d :: ds) := by
          intro x hx
          exact h x ((List.getLast?_cons_cons).symm ▸ hx)
        intro x hx
        cases hX : cspGo false (d :: ds) with
        | nil =>
          rw [hX] at hx
          simp only [List.getLast?_singleton, Option.some.injEq] at hx
          subst hx
          exact eq_false_of_ne_true hc
        | cons y ys =>
          rw [hX, List.getLast?_cons_cons] at hx
          exact ih hcs false x (hX ▸ hx)

theorem cspGo_noLead {l : PyStr} (h : noLeadWsP l) : noLeadWsP (cspGo false l) := by
  cases l with
  | nil => intro c hc; exact absurd hc (by simp [cspGo])
  | cons c cs =>
    have hc : isWsC c = false := h c rfl
    intro x hx
    simp only [cspGo, hc, Bool.false_eq_true, if_false, List.head?_cons,
      Option.some.injEq] at hx
    subst hx
    exact hc

theorem cspGo_mem {l : PyStr} : ∀ {b} {x}, x ∈ cspGo b l → x = ' ' ∨ x ∈ l := by
  induction l with
  | nil => intro b x hx; exact absurd hx (by simp [cspGo])
  | cons c cs ih =>
    intro b x hx
    by_cases hc : isWsC c = true
    · cases b with
      | true =>
        simp only [cspGo, hc, if_true] at hx
        rcases ih hx with h | h
        · exact Or.inl h
        · exact Or.inr (List.mem_cons_of_mem c h)
      | false =>
        simp only [cspGo, hc, if_true, Bool.false_eq_true, if_false] at hx
        rcases List.mem_cons.mp hx with rfl | hx
        · exact Or.inl rfl
        · rcases ih hx with h | h
          · exact Or.inl h
          · exact Or.inr (List.mem_cons_of_mem c h)
    · simp only [cspGo, hc, Bool.false_eq_true, if_false] at hx
      rcases List.mem_cons.mp hx with rfl | hx
      · exact Or.inr (List.mem_cons_self x cs)
      · rcases ih hx with h | h
        · exact Or.inl h
        · exact Or.inr (List.mem_cons_of_mem c h)

theorem dropTrailWs_noTrail (l : PyStr) : noTrailWsP (dropTrailWs l) := by
  induction l with
  | nil => intro c hc; exact absurd hc (by simp [dropTrailWs])
  | cons c cs ih =>
    intro x hx
    simp only [dropTrailWs] at hx
    cases hd : dropTrailWs cs with
    | nil =>
      rw [hd] at hx
      by_cases hc : isWsC c = true
      · rw [if_pos hc] at hx
        exact absurd hx (by simp)
      · rw [if_neg hc] at hx
        simp only [List.getLast?_singleton, Option.some.injEq] at hx
        subst hx
        exact eq_false_of_ne_true hc
    | cons y ys =>
      rw [hd, List.getLast?_cons_cons] at hx
      exact ih x (hd ▸ hx)

theorem dropTrailWs_id {l : PyStr} (h : noTrailWsP l) : dropTrailWs l = l := by
  induction l with
  | nil => rfl
  | cons c cs ih =>
    cases cs with
    | nil =>
      have hc := h c rfl
      simp [dropTrailWs, hc]
    | cons d ds =>
      have hcs : noTrailWsP (d :: ds) := by
        intro x hx
        exact h x ((List.getLast?_cons_cons).symm ▸ hx)
      have hd := ih hcs
      conv_lhs => rw [dropTrailWs]
      rw [hd]

theorem dropTrailWs_mem {l : PyStr} : ∀ {x}, x ∈ dropTrailWs l → x ∈ l := by
  induction l with
  | nil => intro x hx; exact absurd hx (by simp [dropTrailWs])
  | cons c cs ih =>
    intro x hx
    simp only [dropTrailWs] at hx
    cases hd : dropTrailWs cs with
    | nil =>
      rw [hd] at hx
      by_cases hc : isWsC c = true
      · rw [if_pos hc] at hx
        exact absurd hx (by simp)
      · rw [if_neg hc] at hx
        rcases List.mem_singleton.mp hx with rfl
        exact List.mem_cons_self x cs
    | cons y ys =>
      rw [hd] at hx
      rcases List.mem_cons.mp hx with rfl | hx
      · exact List.mem_cons_self x cs
      · exact List.mem_cons_of_mem c (ih (hd ▸ hx))

theorem dropTrailWs_noLead {l : PyStr} (h : noLeadWsP l) :
    noLeadWsP (dropTrailWs l) := by
  cases l with
  | nil => intro c hc; exact absurd hc (by simp [dropTrailWs])
  | cons c cs =>
    have hc : isWsC c = false := h c rfl
    intro x hx
    simp only [dropTrailWs] at hx
    cases hd : dropTrailWs cs with
    | nil =>
      rw [hd, if_neg (by simp [hc])] at hx
      simp only [List.head?_cons, Option.some.injEq] at hx
      subst hx
      exact hc
    | cons y ys =>
      rw [hd] at hx
      simp only [List.head?_cons, Option.some.injEq] at hx
      subst hx
      exact hc

theorem dropWhileWs_noLead (l : PyStr) : noLeadWsP (l.dropWhile isWsC) := by
  induction l with
  | nil => intro c hc; exact absurd hc (by simp)
  | cons c cs ih =>
    by_cases hc : isWsC c = true
    · rw [List.dropWhile_cons, if_pos hc]
      exact ih
    · rw [List.dropWhile_cons, if_neg hc]
      intro x hx
      simp only [List.head?_cons, Option.some.injEq] at hx
      subst hx
      exact eq_false_of_ne_true hc

theorem pyStrip_noLead (l : PyStr) : noLeadWsP (pyStrip l) :=
  dropTrailWs_noLead (dropWhileWs_noLead l)

theorem pyStrip_noTrail (l : PyStr) : noTrailWsP (pyStrip l) :=
  dropTrailWs_noTrail _

theorem pyStrip_mem {l : PyStr} {x : Char} (h : x ∈ pyStrip l) : x ∈ l :=
  (List.dropWhile_sublist isWsC).mem (dropTrailWs_mem h)

theorem pyStrip_id {l : PyStr} (h1 : noLeadWsP l) (h2 : noTrailWsP l) :
    pyStrip l = l := by
  have hd : l.dropWhile isWsC = l := by
    cases l with
    | nil => rfl
    | cons c cs => rw [List.dropWhile_cons, if_neg (by simp [h1 c rfl])]
  unfold pyStrip
  rw [hd, dropTrailWs_id h2]

theorem ocrCleanText_eq (l : PyStr) :
    ocrCleanText l
      = pyReplaceAmp ((cspGo false (pyStrip l)).map
          (fun c => if allowedChar c then c else ' ')) := by
  cases l with
  | nil => rfl
  | cons c cs => rfl

theorem allowedChar_sp : allowedChar ' ' = true := by decide

theorem mapAllowed_allAllowed (l : PyStr) :
    ∀ c ∈ l.map (fun c => if allowedChar c then c else ' '),
      allowedChar c = true := by
  intro c hc
  obtain ⟨a, _, ha⟩ := List.mem_map.mp hc
  by_cases h : allowedChar a = true
  · rw [if_pos h] at ha
    exact ha ▸ h
  · rw [if_neg h] at ha
    exact ha ▸ allowedChar_sp

theorem mapAllowed_id {l : PyStr} (h : ∀ c ∈ l, allowedChar c = true) :
    l.map (fun c => if allowedChar c then c else ' ') = l := by
  have hfg : ∀ a ∈ l, (fun c => if allowedChar c then c else ' ') a = id a := by
    intro a ha
    show (if allowedChar a = true then a else ' ') = a
    rw [if_pos (h a ha)]
  rw [List.map_congr_left hfg]
  exact List.map_id l

theorem amp_id {l : PyStr} (h : ∀ c ∈ l, allowedChar c = true) :
    pyReplaceAmp l = l := by
  induction l with
  | nil => rfl
  | cons c cs ih =>
    have hc : (c == '&') = false := by
      cases hceq : c == '&' with
      | true =>
        have : c = '&' := by simpa using hceq
        subst this
        exact absurd (h '&' (List.mem_cons_self _ _)) (by decide)
      | false => rfl
    have ih' := ih (fun x hx => h x (List.mem_cons_of_mem c hx))
    simp only [pyReplaceAmp, List.flatMap_cons, hc, Bool.false_eq_true,
      if_false, List.singleton_append]
    simp only [pyReplaceAmp] at ih'
    rw [ih']

theorem cleanText_allAllowed (l : PyStr) :
    ∀ c ∈ ocrCleanText l, allowedChar c = true := by
  rw [ocrCleanText_eq]
  intro c hc
  rw [amp_id (mapAllowed_allAllowed _)] at hc
  exact mapAllowed_allAllowed _ c hc

theorem cleanText_of_allAllowed {l : PyStr}
    (h : ∀ c ∈ l, allowedChar c = true) :
    ocrCleanText l = cspGo false (pyStrip l) := by
  rw [ocrCleanText_eq]
  have h2 : ∀ c ∈ cspGo false (pyStrip l), allowedChar c = true := by
    intro c hc
    rcases cspGo_mem hc with rfl | hc
    · exact allowedChar_sp
    · exact h c (pyStrip_mem hc)
  rw [mapAllowed_id h2, amp_id h2]

theorem cleanText_fixpoint {l : PyStr}
    (h : ∀ c ∈ l, allowedChar c = true) :
    ocrCleanText (cspGo false (pyStrip l)) = cspGo false (pyStrip l) := by
  have hz : ∀ c ∈ cspGo false (pyStrip l), allowedChar c = true := by
    intro c hc
    rcases cspGo_mem hc with rfl | hc
    · exact allowedChar_sp
    · exact h c (pyStrip_mem hc)
  rw [cleanText_of_allAllowed hz,
    pyStrip_id (cspGo_noLead (pyStrip_noLead l))
      (cspGo_noTrail (pyStrip_noTrail l) false)]
  exact cspGo_idem _ false

/-- C8 (counterexample): `_clean_text` is not idempotent.  Blanking a
disallowed character happens *after* whitespace collapsing, so
`_clean_text("a @b") = "a  b"` (two blanks) while
`_clean_text("a  b") = "a b"`. -/
theorem clean_text_cex :
    ocrCleanText (ocrCleanText (pystr "a @b")) ≠ ocrCleanText (pystr "a @b") ∧
      ocrCleanText (pystr "a @b") = pystr "a  b" ∧
      ocrCleanText (pystr "a  b") = pystr "a b" :=
  ⟨by decide, by decide, by decide⟩

/-- C8 (amended): `_clean_text` returns the empty string on empty input, is
idempotent on inputs made of allowed characters only, and is idempotent from
the second application onward; on general input a second application can
still collapse blanks introduced by the character filter. -/
theorem clean_text_amended :
    (∀ t : PyStr, ocrCleanText (ocrCleanText (ocrCleanText t))
        = ocrCleanText (ocrCleanText t)) ∧
      ocrCleanText [] = [] ∧
      (∀ t : PyStr, (∀ c ∈ t, allowedChar c = true) →
        ocrCleanText (ocrCleanText t) = ocrCleanText t) := by
  refine ⟨?_, rfl, ?_⟩
  · intro t
    have hy := cleanText_allAllowed t
    rw [cleanText_of_allAllowed hy]
    exact cleanText_fixpoint hy
  · intro t h
    rw [cleanText_of_allAllowed h]
    exact cleanText_fixpoint h

/-- Witness for C8 on an allowed-characters input. -/
theorem clean_text_amended_witness :
    (∀ c ∈ pystr "ab c", allowedChar c = true) ∧
      ocrCleanText (ocrCleanText (pystr "ab c")) = ocrCleanText (pystr "ab c") :=
  ⟨by decide, clean_text_amended.2.2 (pystr "ab c") (by decide)⟩

theorem pyContains_nil {kw : PyStr} (h : kw ≠ []) : pyContains kw [] = false := by
  cases kw with
  | nil => exact absurd rfl h
  | cons c cs => rfl

theorem findSome?_oracle_none {α : Type} (re : ReOracle) (text : PyStr)
    (pats : List PyStr) (f : PyStr → Option α) (h : ∀ p, re p text = []) :
    pats.findSome? (fun pat => (re pat text).findSome? f) = none := by
  induction pats with
  | nil => rfl
  | cons p ps ih =>
    rw [List.findSome?_cons, h p]
    simpa using ih

theorem matchedOffenses_nil_of_empty (re : ReOracle) (tax : Taxonomy)
    (htax : ∀ e ∈ tax, (∀ p, e.2.regex = some p → re p [] = []) ∧
        ∀ kw ∈ e.2.keywords, kw ≠ []) :
    matchedOffenses re tax [] = [] := by
  unfold matchedOffenses
  rw [List.filterMap_eq_nil_iff]
  intro entry hentry
  obtain ⟨hreg, hkw⟩ := htax entry hentry
  unfold detectMatchEntry
  have hput : pyUpper [] = [] := rfl
  rw [hput]
  have hro : (match entry.2.regex with
      | some pat => (re pat []).head?
      | none => none) = (none : Option PyStr) := by
    cases hr : entry.2.regex with
    | some p =>
      show (re p []).head? = none
      rw [hreg p hr]
      rfl
    | none => rfl
  rw [hro]
  have hfind : entry.2.keywords.find? (fun kw => pyContains kw []) = none := by
    rw [List.find?_eq_none]
    intro kw hkwmem
    rw [pyContains_nil (hkw kw hkwmem)]
    decide
  rw [hfind]

/-- C5 (counterexample): the no-match sentinel of
`detect_offense_from_text` carries *no* `match_method` key at all (only the
`detect_all_offenses_from_text` sentinel has `match_method="none"`), so on
empty input the detected offense's `match_method` is not the string
`"none"`. -/
theorem empty_input_cex :
    (detect_offense_from_text reNone sampleTax []).match_method
        ≠ some (pystr "none") ∧
      (detect_offense_from_text reNone sampleTax []).match_method = none ∧
      (detect_all_offenses_from_text reNone sampleTax [])
        = [unknownOffenseAll] :=
  ⟨by decide, by decide, by decide⟩

/-- C5 (amended): on empty input (and an oracle/taxonomy with no matches on
the empty string), `OCRService.extract_all_info("", "student")` returns a
result whose extraction fields are all `None`, with
`extraction_confidence = 0.0`, and `detect_offense_from_text` returns the
sentinel with `code="UNKNOWN"`, `severity=0` — but with no `match_method`
key. -/
theorem empty_input_amended (re : ReOracle) (now : PyStr) (tax : Taxonomy)
    (hre : ∀ p, re p [] = [])
    (htax : ∀ e ∈ tax, (∀ p, e.2.regex = some p → re p [] = []) ∧
        ∀ kw ∈ e.2.keywords, kw ≠ []) :
    ocr_extract_all_info re [] (pystr "student") now
        = ⟨.studentInfo none none none none, none, none, none, 0, now⟩ ∧
      detect_offense_from_text re tax [] = unknownOffense := by
  constructor
  · have hclean : ocrCleanText [] = [] := rfl
    have hname : ocrExtractName re [] = none :=
      findSome?_oracle_none re [] osStudentNamePatterns _ hre
    have hprog : ocrExtractProgram re [] = none :=
      findSome?_oracle_none re [] osProgramPatterns _ hre
    have hsect : ocrExtractSection re [] = none :=
      findSome?_oracle_none re [] osSectionPatterns _ hre
    have hcat : ocrExtractCategory re [] = none :=
      findSome?_oracle_none re [] osCategoryPatterns _ hre
    have hdesc : ocrExtractDescription re [] = none :=
      findSome?_oracle_none re [] osDescriptionPatterns _ hre
    have hspec : ocrExtractSpecificOffense re [] = none := by
      simp only [ocrExtractSpecificOffense]
      rw [show OFFENSE_CATEGORY_MAP.find? (fun e => pyContains e.1 (pyLower []))
          = none by decide]
      exact findSome?_oracle_none re [] osSpecificOffensePatterns _ hre
    have hoff : extract_offense_info re [] = ⟨none, none, none⟩ := by
      simp only [extract_offense_info]
      rw [show ocrCleanText [] = [] from rfl, hcat, hspec, hdesc]
      rfl
    have hstud : extract_student_info re [] = .studentInfo none none none none := by
      simp only [extract_student_info]
      rw [show ocrCleanText [] = [] from rfl, hname, hprog, hsect]
      rfl
    have hconf : ocrCalculateConfidence (.studentInfo none none none none)
        ⟨none, none, none⟩ = 0 := by
      norm_num [ocrCalculateConfidence, truthy, EntityInfo.getFirstName,
        EntityInfo.getLastName, EntityInfo.getProgram, EntityInfo.getSection,
        pyRound2]
    simp only [ocr_extract_all_info,
      show (pystr "student" == pystr "faculty") = false from rfl,
      show (pystr "student" == pystr "staff") = false from rfl,
      Bool.false_eq_true, if_false]
    rw [hoff, hstud, hconf]
  · unfold detect_offense_from_text
    rw [matchedOffenses_nil_of_empty re tax htax]
    rfl

/-- Witness for C5 with the trivial oracle and the sample taxonomy. -/
theorem empty_input_amended_witness :
    ((∀ p, reNone p [] = []) ∧
        ∀ e ∈ sampleTax, (∀ p, e.2.regex = some p → reNone p [] = []) ∧
          ∀ kw ∈ e.2.keywords, kw ≠ []) ∧
      (ocr_extract_all_info reNone [] (pystr "student") (pystr "2025-10-07T10:00:00")
          = ⟨.studentInfo none none none none, none, none, none, 0,
             pystr "2025-10-07T10:00:00"⟩ ∧
        detect_offense_from_text reNone sampleTax [] = unknownOffense) :=
  ⟨⟨fun _ => rfl, by decide⟩,
   empty_input_amended reNone (pystr "2025-10-07T10:00:00") sampleTax
     (fun _ => rfl) (by decide)⟩

/-- C6 (counterexample): `extract_all_info` stamps the result with
`datetime.now().isoformat()`, so two runs at different clock readings return
different mappings — they disagree on `extracted_at`. -/
theorem extraction_deterministic_cex :
    (ocr_extract_all_info reNone [] (pystr "student")
          (pystr "2025-10-07T10:00:00")).extracted_at
        ≠ (ocr_extract_all_info reNone [] (pystr "student")
            (pystr "2025-10-07T10:00:01")).extracted_at ∧
      ocr_extract_all_info reNone [] (pystr "student")
          (pystr "2025-10-07T10:00:00")
        ≠ ocr_extract_all_info reNone [] (pystr "student")
            (pystr "2025-10-07T10:00:01") := by
  have h1 : (ocr_extract_all_info reNone [] (pystr "student")
      (pystr "2025-10-07T10:00:00")).extracted_at
      ≠ (ocr_extract_all_info reNone [] (pystr "student")
          (pystr "2025-10-07T10:00:01")).extracted_at := by decide
  exact ⟨h1, fun h => h1 (congrArg OCRAllResult.extracted_at h)⟩

/-- C6 (amended): for a fixed oracle, text and entity type,
`extract_all_info` is deterministic on every output key *except*
`extracted_at`, which records the wall-clock time of the run; with the clock
fixed the whole result is identical. -/
theorem extraction_deterministic_amended (re : ReOracle)
    (text entity_type now1 now2 : PyStr) :
    (ocr_extract_all_info re text entity_type now1).entity
        = (ocr_extract_all_info re text entity_type now2).entity ∧
      (ocr_extract_all_info re text entity_type now1).category
        = (ocr_extract_all_info re text entity_type now2).category ∧
      (ocr_extract_all_info re text entity_type now1).specific_offense
        = (ocr_extract_all_info re text entity_type now2).specific_offense ∧
      (ocr_extract_all_info re text entity_type now1).description
        = (ocr_extract_all_info re text entity_type now2).description ∧
      (ocr_extract_all_info re text entity_type now1).extraction_confidence
        = (ocr_extract_all_info re text entity_type now2).extraction_confidence :=
  ⟨rfl, rfl, rfl, rfl, rfl⟩
